import Mathlib

/-!
Verification development for the Nix AI conversational core (`main.py`).

The Python core (`NixAICore`) is shallowly embedded below: its knowledge
document becomes a Lean structure, dict operations become association-list
operations, `datetime` values become `Int` timestamps, `random.choice`
becomes selection by an externally supplied index, and the aiohttp weather
provider becomes a function argument returning a status / payload / failure
value.  Regular-expression operations used by the core are only literal
alternations and two concrete capture patterns; they are embedded as
substring tests and explicit backtracking matchers over character lists.
-/

namespace NixAI

/-! ## Characters and Python-style string primitives

`str.lower` / `str.upper` / `re`'s `\w` and `\s` are embedded for the
alphabet the program actually manipulates: ASCII plus the Cyrillic block
(U+0400–U+04FF), which covers every literal in `main.py`. -/

/-- Lower-case one character the way Python `str.lower()` does on the
program's alphabet: ASCII `A`–`Z`, Cyrillic `А`–`Я` (U+0410–U+042F, shifted
by 0x20) and `Ё` (U+0401 → U+0451). -/
def lowerChar (c : Char) : Char :=
  if 'A' ≤ c ∧ c ≤ 'Z' then Char.ofNat (c.toNat + 32)
  else if c.toNat ≥ 0x410 ∧ c.toNat ≤ 0x42F then Char.ofNat (c.toNat + 32)
  else if c.toNat = 0x401 then Char.ofNat 0x451
  else c

/-- Upper-case one character (used by Python `str.capitalize()`). -/
def upperChar (c : Char) : Char :=
  if 'a' ≤ c ∧ c ≤ 'z' then Char.ofNat (c.toNat - 32)
  else if c.toNat ≥ 0x430 ∧ c.toNat ≤ 0x44F then Char.ofNat (c.toNat - 32)
  else if c.toNat = 0x451 then Char.ofNat 0x401
  else c

/-- Python `str.lower()`. -/
def strLower (s : String) : String := String.mk (s.toList.map lowerChar)

/-- Python `str.capitalize()`: first character upper-cased, rest lower-cased. -/
def pyCapitalize (s : String) : String :=
  match s.toList with
  | [] => ""
  | c :: cs => String.mk (upperChar c :: cs.map lowerChar)

/-- Python `\s` / `str.strip()` whitespace (ASCII part, which is all the
program ever strips). -/
def isSpaceChar (c : Char) : Bool :=
  c = ' ' || c = '\t' || c = '\n' || c = '\r' || c = '\x0b' || c = '\x0c'

/-- Python regex `\w` over the program's alphabet: ASCII alphanumerics,
underscore, and the Cyrillic block U+0400–U+04FF. -/
def isWordChar (c : Char) : Bool :=
  ('a' ≤ c && c ≤ 'z') || ('A' ≤ c && c ≤ 'Z') || ('0' ≤ c && c ≤ '9') ||
  c = '_' || (0x400 ≤ c.toNat && c.toNat ≤ 0x4FF)

/-- Python `str.strip()`. -/
def pyStrip (s : String) : String :=
  let l := s.toList.dropWhile isSpaceChar
  String.mk ((l.reverse.dropWhile isSpaceChar).reverse)

/-- Substring test on character lists: does `n` occur inside `h`?
Mirrors Python's `n in h` on strings. -/
def containsSub (n : List Char) : List Char → Bool
  | [] => n.isEmpty
  | c :: t => n.isPrefixOf (c :: t) || containsSub n t

/-- Python `sub in hay` for strings. -/
def pyIn (sub hay : String) : Bool := containsSub sub.toList hay.toList

/-- Embedding: `re.findall(r'\b\w+\b', ·)`: the maximal runs of word characters,
in order. -/
def tokenize : List Char → List String
  | [] => []
  | [c] => if isWordChar c then [String.mk [c]] else []
  | c :: d :: cs =>
    let rest := tokenize (d :: cs)
    if isWordChar c then
      if isWordChar d then
        match rest with
        | t :: ts => (String.mk [c] ++ t) :: ts
        | [] => [String.mk [c]]
      else String.mk [c] :: rest
    else rest

/-- Lexicographic `<` by code points, as Python compares strings. -/
def lexLt : List Char → List Char → Bool
  | [], [] => false
  | [], _ :: _ => true
  | _ :: _, [] => false
  | a :: as, b :: bs => if a < b then true else if b < a then false else lexLt as bs

/-- Embedding: `a ≤ b` for the total code-point order. -/
def strLe (a b : String) : Bool := !(lexLt b.toList a.toList)

/-- Stable insertion into a sorted list (used to model Python `sorted`). -/
def insertLe (x : String) : List String → List String
  | [] => [x]
  | y :: ys => if strLe x y then x :: y :: ys else y :: insertLe x ys

/-- Python `sorted` on strings (insertion sort; stability is irrelevant for
a total order on values). -/
def sortStr : List String → List String
  | [] => []
  | x :: xs => insertLe x (sortStr xs)

/-! ## Python dict as an association list

Python 3 dicts preserve insertion order; assignment to an existing key
keeps its position, assignment to a new key appends. -/

/-- Embedding: `d.get(key)`: value of the first entry with this key. -/
def dget? [BEq κ] (key : κ) (d : List (κ × α)) : Option α :=
  (d.find? (fun p => p.1 == key)).map (·.2)

/-- Embedding: `d[key] = v`: replace in place when the key is present, else append. -/
def dinsert [BEq κ] (key : κ) (v : α) (d : List (κ × α)) : List (κ × α) :=
  if d.any (fun p => p.1 == key) then
    d.map (fun p => if p.1 == key then (key, v) else p)
  else d ++ [(key, v)]

/-- Embedding: `random.choice(l)` where the random index is supplied externally. -/
def choice (pick : Nat) (l : List String) : String :=
  l.getD (pick % l.length) ""

/-! ## Keyword extraction (`NixAICore._extract_keywords`) -/

/-- The stop-word set of `_extract_keywords`. -/
def stop_words : List String :=
  ["что", "как", "кто", "где", "когда", "почему", "зачем",
   "это", "этот", "эта", "эти", "тот", "та", "те", "свой",
   "мои", "твои", "его", "её", "их", "наш", "ваш", "весь",
   "все", "всё", "какой", "какая", "какие", "такой", "такая"]

/-- Embedding: `_extract_keywords`: tokenize the lower-cased text on word boundaries and
drop stop words and tokens of length `≤ 2`. -/
def extract_keywords (text : String) : List String :=
  (tokenize (strLower text).toList).filter
    (fun w => !(stop_words.contains w) && w.length > 2)

/-- The distinct elements of a list (each element once; used only for
counting, so which occurrence survives is irrelevant). -/
def distinct : List String → List String
  | [] => []
  | x :: xs => if xs.contains x then distinct xs else x :: distinct xs

/-- Embedding: `len(set(a) & set(b))`: the number of distinct strings occurring in both
lists. -/
def inter_size (a b : List String) : Nat :=
  ((distinct a).filter (fun w => b.contains w)).length

/-! ## QnA lookup (`NixAICore._check_qna_match`) -/

/-- The containment loop of `_check_qna_match`: first stored question that is
a substring of the utterance or contains it. -/
def qna_contain_scan (m : String) : List (String × String) → Option String
  | [] => none
  | (q, a) :: rest => if pyIn q m || pyIn m q then some a else qna_contain_scan m rest

/-- The keyword loop of `_check_qna_match`: first stored question sharing at
least two keywords with the utterance. -/
def qna_keyword_scan (kws : List String) : List (String × String) → Option String
  | [] => none
  | (q, a) :: rest =>
    if 2 ≤ inter_size kws (extract_keywords q) then some a
    else qna_keyword_scan kws rest

/-- Embedding: `_check_qna_match`: exact (lower-cased) key lookup, then the containment
loop, then the keyword-overlap loop. -/
def check_qna_match (qna : List (String × String)) (user_message : String) : Option String :=
  let m := strLower user_message
  match dget? m qna with
  | some a => some a
  | none =>
    match qna_contain_scan m qna with
    | some a => some a
    | none => qna_keyword_scan (extract_keywords m) qna

/-! ## Confidence (`NixAICore._calculate_confidence`)

Python floats are modelled by `ℚ`: every value the function manipulates is
`0.9`, `0.0` or a quotient of small naturals. -/

/-- The accumulator loop of `_calculate_confidence`; questions without
keywords are skipped (`continue`). -/
def confidence_loop (kws : List String) (best : ℚ) : List (String × String) → ℚ
  | [] => best
  | (q, _) :: rest =>
    let qk := extract_keywords q
    if qk = [] then confidence_loop kws best rest
    else
      confidence_loop kws
        (max best ((inter_size kws qk : ℚ) / ((max kws.length qk.length : Nat) : ℚ))) rest

/-- Embedding: `_calculate_confidence`. -/
def calculate_confidence (qna : List (String × String)) (user_message : String) : ℚ :=
  if (dget? (strLower user_message) qna).isSome then 9/10
  else
    let kws := extract_keywords user_message
    if kws = [] then 0
    else confidence_loop kws 0 qna

/-! ## The two capture regexes

`_remember_info` uses `re.search(r'запомни\s*(?:что|,)?\s*(.+)', m)` and the
weather branch uses `re.search(r'погода\s+(.+)', m)`.  They are embedded as
explicit leftmost-first backtracking matchers:  `\s*` / `\s+` consume
greedily and give back one character at a time, the optional group tries
`что`, then `,`, then nothing, and `(.+)` takes the maximal run of
non-newline characters (at least one). -/

/-- Embedding: `(.+)` at the start of `l`. -/
def dotPlus (l : List Char) : Option (List Char) :=
  let r := l.takeWhile (fun c => c ≠ '\n')
  if r.isEmpty then none else some r

/-- Backtracking for `\s{minWs,}(.+)` at `l`: `b` characters of leading
whitespace are consumed, from the greedy maximum down to `minWs`. -/
def wsGo (l : List Char) (minWs : Nat) : Nat → Option (List Char)
  | 0 => if 0 < minWs then none else dotPlus l
  | b + 1 =>
    if b + 1 < minWs then none
    else
      match dotPlus (l.drop (b + 1)) with
      | some r => some r
      | none => wsGo l minWs b

/-- Embedding: `\s*(.+)` (with `minWs = 0`) or `\s+(.+)` (with `minWs = 1`) at `l`. -/
def wsThenRest (l : List Char) (minWs : Nat) : Option (List Char) :=
  wsGo l minWs ((l.takeWhile isSpaceChar).length)

/-- Embedding: `(?:что|,)?\s*(.+)` at `l1`: alternatives in regex order. -/
def zapAlts (l1 : List Char) : Option (List Char) :=
  match (if ("что".toList).isPrefixOf l1 then wsThenRest (l1.drop 3) 0 else none) with
  | some r => some r
  | none =>
    match (if [','].isPrefixOf l1 then wsThenRest (l1.drop 1) 0 else none) with
    | some r => some r
    | none => wsThenRest l1 0

/-- Outer `\s*` of the `запомни` pattern: consume `b` whitespace characters,
greedy maximum first. -/
def zapGo (l : List Char) : Nat → Option (List Char)
  | 0 => zapAlts l
  | b + 1 =>
    match zapAlts (l.drop (b + 1)) with
    | some r => some r
    | none => zapGo l b

/-- Embedding: `\s*(?:что|,)?\s*(.+)` at `l`. -/
def zapTail (l : List Char) : Option (List Char) :=
  zapGo l ((l.takeWhile isSpaceChar).length)

/-- Embedding: `re.search`: scan positions left to right for the literal head of the
pattern followed by a successful tail match; return the capture. -/
def reSearchCapture (lit : List Char) (tailF : List Char → Option (List Char)) :
    List Char → Option (List Char)
  | [] => if lit.isEmpty then tailF [] else none
  | c :: cs =>
    match (if lit.isPrefixOf (c :: cs) then tailF ((c :: cs).drop lit.length) else none) with
    | some r => some r
    | none => reSearchCapture lit tailF cs

/-- The fact captured by `_remember_info`'s regex from the lower-cased
message, already `.strip()`-ed as in the handler. -/
def remember_extract (message : String) : Option String :=
  (reSearchCapture "запомни".toList zapTail (strLower message).toList).map
    (fun cs => pyStrip (String.mk cs))

/-- The city captured by the weather branch's regex from the lower-cased
message, already `.strip()`-ed as at line 638. -/
def weather_city (message : String) : Option String :=
  (reSearchCapture "погода".toList (fun l => wsThenRest l 1) (strLower message).toList).map
    (fun cs => pyStrip (String.mk cs))

/-! ## The knowledge document

`datetime` values are modelled as `Int` timestamps (seconds); ISO strings
stored in the document are kept as the timestamp itself.  The unused
`memory` / `learned_phrases` keys of the default document are carried by no
core operation and are omitted. -/

/-- The fixed `facts` mapping (keys `создатель`, `имя`, `версия`, `цель`). -/
structure Facts where
  creator : String
  name : String
  version : String
  goal : String
deriving DecidableEq

/-- One entry of `learned_facts`. -/
structure LearnedFact where
  fact : String
  learned_at : Int
  learned_by : Option Int
deriving DecidableEq

/-- The `statistics` sub-document.  `first_start` is an ISO string in the
file and is never incremented (no call site passes it to
`update_user_stats`). -/
structure Stats where
  total_conversations : Nat
  total_messages : Nat
  learned_qna : Nat
  corrections_received : Nat
  first_start : String
  total_users : Nat
deriving DecidableEq

/-- Embedding: `UserProfile` (the dataclass).  `preferences` is an open mapping no core
operation reads. -/
structure UserProfile where
  user_id : Int
  username : Option String := none
  first_name : Option String := none
  last_name : Option String := none
  conversation_count : Nat := 0
  total_messages : Nat := 0
  learned_contributions : Nat := 0
  last_active : Int := 0
  preferences : List (String × String) := []
deriving DecidableEq

/-- The knowledge document.  `user_profiles` is keyed by `str(user_id)` in
the JSON; since `str` is injective on ints the key is modelled as the id
itself. -/
structure Knowledge where
  facts : Facts
  qna : List (String × String)
  learned_facts : List (String × LearnedFact) := []
  interaction_stats : List (String × List (String × Nat)) := []
  statistics : Stats
  user_profiles : List (Int × UserProfile) := []
deriving DecidableEq

/-- Embedding: `_create_default_knowledge`, parametrised by the `first_start` stamp. -/
def default_knowledge (first_start : String) : Knowledge where
  facts :=
    { creator := "Меня создал Аслан"
      name := "Nix AI"
      version := "0.1 (Telegram Edition)"
      goal := "Помогать людям в Telegram" }
  qna :=
    [("что такое python", "Python — это язык программирования"),
     ("что такое искусственный интеллект", "ИИ — это система, имитирующая человеческий интеллект"),
     ("как тебя зовут", "Меня зовут Nix AI"),
     ("кто создал тебя", "Меня создал разработчик, который хочет сделать полезного ИИ")]
  statistics :=
    { total_conversations := 0
      total_messages := 0
      learned_qna := 0
      corrections_received := 0
      first_start := first_start
      total_users := 0 }

/-- A Python value is truthy as an optional string when it is present and
non-empty (`if username and ...`). -/
def truthyS : Option String → Option String
  | none => none
  | some s => if s = "" then none else some s

/-- Embedding: `_save_user_profile`: write the profile at key `profile.user_id`. -/
def save_user_profile (k : Knowledge) (p : UserProfile) : Knowledge :=
  { k with user_profiles := dinsert p.user_id p k.user_profiles }

/-- Embedding: `get_or_create_user_profile`.  On a hit, non-empty changed names are
overwritten; on a miss a profile with `conversation_count = 1` is created
and `statistics.total_users` is incremented.  `last_active` is stamped and
the profile saved in both cases. -/
def get_or_create_user_profile (k : Knowledge) (now : Int) (user_id : Int)
    (username first_name last_name : Option String) : UserProfile × Knowledge :=
  match dget? user_id k.user_profiles with
  | some p0 =>
    let p1 := if (truthyS username).isSome ∧ username ≠ p0.username then
        { p0 with username := username } else p0
    let p2 := if (truthyS first_name).isSome ∧ first_name ≠ p1.first_name then
        { p1 with first_name := first_name } else p1
    let p3 := if (truthyS last_name).isSome ∧ last_name ≠ p2.last_name then
        { p2 with last_name := last_name } else p2
    let p := { p3 with last_active := now }
    (p, save_user_profile k p)
  | none =>
    let p : UserProfile :=
      { user_id := user_id, username := username, first_name := first_name,
        last_name := last_name, conversation_count := 1, last_active := now }
    let k1 := { k with statistics :=
        { k.statistics with total_users := k.statistics.total_users + 1 } }
    (p, save_user_profile k1 p)

/-- Embedding: `update_user_stats`: bump the named per-user counter when the profile
exists (stamping `last_active`), and mirror the bump into `statistics` when
the field name is a `statistics` key.  (`first_start` is a string and would
fault on `+= 1`; no caller passes it.) -/
def update_user_stats (k : Knowledge) (now : Int) (user_id : Int) (f : String) : Knowledge :=
  let k1 :=
    match dget? user_id k.user_profiles with
    | some p =>
      let p1 :=
        if f = "total_messages" then { p with total_messages := p.total_messages + 1 }
        else if f = "learned_contributions" then
          { p with learned_contributions := p.learned_contributions + 1 }
        else if f = "conversation_count" then
          { p with conversation_count := p.conversation_count + 1 }
        else p
      { k with user_profiles := dinsert user_id { p1 with last_active := now } k.user_profiles }
    | none => k
  if f = "total_conversations" then
    { k1 with statistics := { k1.statistics with total_conversations := k1.statistics.total_conversations + 1 } }
  else if f = "total_messages" then
    { k1 with statistics := { k1.statistics with total_messages := k1.statistics.total_messages + 1 } }
  else if f = "learned_qna" then
    { k1 with statistics := { k1.statistics with learned_qna := k1.statistics.learned_qna + 1 } }
  else if f = "corrections_received" then
    { k1 with statistics := { k1.statistics with corrections_received := k1.statistics.corrections_received + 1 } }
  else if f = "total_users" then
    { k1 with statistics := { k1.statistics with total_users := k1.statistics.total_users + 1 } }
  else k1

/-- Embedding: `_learn_from_interaction`: when the utterance has at least two keywords,
bump `interaction_stats[two smallest sorted keywords][answer]`. -/
def learn_from_interaction (k : Knowledge) (question answer : String) : Knowledge :=
  let kws := extract_keywords (strLower question)
  if 2 ≤ kws.length then
    let key := String.intercalate " " ((sortStr kws).take 2)
    let inner := (dget? key k.interaction_stats).getD []
    let cnt := (dget? answer inner).getD 0
    { k with interaction_stats := dinsert key (dinsert answer (cnt + 1) inner) k.interaction_stats }
  else k

/-! ## Weather (`get_weather`, `_format_weather_data`, `_get_weather_icon`)

The aiohttp call is a function argument: for each city the provider either
delivers an HTTP status with a parsed payload, or fails in transport (the
`except` arm), carrying `str(e)`.  Numeric JSON fields only ever flow into
the formatted text, so the payload carries them as their rendered decimal
strings (`{temp:.1f}` etc. applied); absent fields default as in
`data.get(..., 0)`. -/

/-- The parsed provider payload, post-`data.get` defaulting, with numbers
already rendered the way the f-string renders them. -/
structure WeatherData where
  name : String := "Неизвестный город"
  country : String := ""
  temp : String := "0.0"
  feels_like : String := "0.0"
  humidity : String := "0"
  pressure : String := "0"
  description : String := ""
  wind_speed : String := "0"
deriving DecidableEq

/-- Outcome of one provider request. -/
inductive ProviderResult where
  | response (status : Nat) (data : WeatherData)
  | failure (detail : String)

/-- Embedding: `WeatherConfig` (the dataclass). -/
structure WeatherConfig where
  api_key : String := ""
  base_url : String := "http://api.openweathermap.org/data/2.5/weather"
  units : String := "metric"
  lang : String := "ru"

/-- Embedding: `_get_weather_icon`. -/
def get_weather_icon (description : String) : String :=
  let dl := strLower description
  if pyIn "дождь" dl then "🌧️"
  else if pyIn "снег" dl then "❄️"
  else if pyIn "облачно" dl then "☁️"
  else if pyIn "ясно" dl || pyIn "солнце" dl then "☀️"
  else if pyIn "туман" dl || pyIn "тумано" dl then "🌫️"
  else if pyIn "гроза" dl then "⛈️"
  else "🌤️"

/-- Embedding: `_format_weather_data`. -/
def format_weather_data (d : WeatherData) : String :=
  let city := d.name
  let country := d.country
  let temp := d.temp
  let feels := d.feels_like
  let humidity := d.humidity
  let pressure := d.pressure
  let desc := pyCapitalize d.description
  let wind := d.wind_speed
  let icon := get_weather_icon desc
  s!"{icon} *Погода в {city}, {country}*\n\n• Температура: {temp}°C\n• Ощущается как: {feels}°C\n• {desc}\n• Влажность: {humidity}%\n• Давление: {pressure} hPa\n• Ветер: {wind} м/с"

/-- The weather cache: lower-cased city ↦ (timestamp, formatted text). -/
abbrev WCache := List (String × Int × String)

/-- Embedding: `self.cache_duration = timedelta(minutes=30)`, in seconds. -/
def cache_duration : Int := 1800

/-- Result of `get_weather`, instrumented with whether the provider was
consulted on this call. -/
structure WeatherResult where
  text : String
  cache : WCache
  called : Bool
deriving Repr

/-- The fixed needs-configuration message. -/
def config_needed_msg : String :=
  "🌤️ Для работы погодного сервиса нужен API ключ OpenWeatherMap.\nДобавьте его в файл weather_config.json"

/-- The cache check at the top of `get_weather` (lines 451–454): the cached
text if an entry for this key exists and is younger than 30 minutes. -/
def cache_fresh (cache : WCache) (cl : String) (now : Int) : Option String :=
  match dget? cl cache with
  | some e => if now - e.1 < cache_duration then some e.2 else none
  | none => none

/-- Embedding: `get_weather`: fresh cache entry → cached text; no API key → fixed
message; otherwise consult the provider, caching only the HTTP-200 result.
The function is total: the `except` arm is the `failure` branch. -/
def get_weather (cfg : WeatherConfig) (cache : WCache) (now : Int)
    (provider : String → ProviderResult) (city : String) : WeatherResult :=
  let cl := strLower city
  match cache_fresh cache cl now with
  | some w => ⟨w, cache, false⟩
  | none =>
    if cfg.api_key = "" then ⟨config_needed_msg, cache, false⟩
    else
      match provider city with
      | .response st d =>
        if st = 200 then
          let w := format_weather_data d
          ⟨w, dinsert cl (now, w) cache, true⟩
        else if st = 404 then
          ⟨s!"🌍 Город \x27{city}\x27 не найден. Проверьте правильность написания.", cache, true⟩
        else
          ⟨s!"⚠️ Ошибка получения погоды. Код ошибки: {st}", cache, true⟩
      | .failure e =>
        ⟨s!"⚠️ Произошла ошибка при получении погоды: {e}", cache, true⟩

/-! ## Rule handlers

Each handler of the `self.rules` dict is embedded as the list of response
phrasings it can return in the current state (`handler_variants`), from
which `random.choice` picks, plus its knowledge update (`handler_update`,
the identity except for `_remember_info`).  `datetime.now().strftime` is an
abstract rendering of the current timestamp supplied by the context. -/

/-- Embedding: `self.learning_modes`. -/
structure LearningModes where
  auto_correction : Bool := true
  ask_before_learning : Bool := false
  confidence_threshold : ℚ := 3/10

/-- Per-turn ambient inputs: the clock, the random index, the weather
provider, the two `strftime` renderings, and the mutable learning modes. -/
structure Ctx where
  now : Int := 0
  pick : Nat := 0
  provider : String → ProviderResult := fun _ => .failure ""
  fmt_time : Int → String := fun _ => ""
  fmt_date : Int → String := fun _ => ""
  modes : LearningModes := {}

/-- The methods registered in `self.rules`, in registration order. -/
inductive Handler where
  | greet | goodbye | how_are_you | thank_you | about_me | about_creator
  | help | time | date | remember_info | recall_info | clear_memory
  | how_i_learn | weather_handler | stats_handler | currency_handler
  | news_handler | joke_handler
deriving DecidableEq

/-- Embedding: `_greet`'s anonymous-user phrasings. -/
def greetings : List String :=
  ["Привет! Я Nix AI, ваш цифровой помощник в Telegram! 👋",
   "Здравствуйте! Рад видеть вас здесь!",
   "Приветствую! Готов помочь вам с любыми вопросами.",
   "Привет! Как я могу вам помочь сегодня?"]

/-- Embedding: `_greet`'s named-user phrasings. -/
def greet_name_options (fn : String) : List String :=
  [s!"С возвращением, {fn}! Как ваши дела?",
   s!"Рад вас снова видеть, {fn}!",
   s!"Привет, {fn}! Чем могу помочь?"]

/-- Embedding: `_goodbye`'s phrasings. -/
def farewells : List String :=
  ["До свидания! Буду рад помочь снова.",
   "Пока! Возвращайтесь, если понадобится помощь.",
   "Всего хорошего! 👋",
   "До встречи! Не забывайте меня!"]

/-- Embedding: `_how_are_you`'s phrasings. -/
def how_are_you_responses : List String :=
  ["У меня все отлично! Спасибо, что спросили. 😊",
   "Работаю в штатном режиме. Как ваши дела?",
   "Прекрасно! Готов помогать вам с любыми вопросами.",
   "Как у цифрового помощника, у меня всегда хорошо!"]

/-- Embedding: `_thank_you`'s phrasings. -/
def thank_you_responses : List String :=
  ["Всегда пожалуйста! 😊",
   "Рад был помочь!",
   "Обращайтесь ещё!",
   "Это моя работа в Telegram!"]

/-- Embedding: `_about_me`'s text. -/
def about_me_text (f : Facts) : String :=
  let n := f.name
  let v := f.version
  let g := f.goal
  s!"🤖 Я {n}, версия {v}.\n🎯 {g}\n💾 Создан на Python с использованием aiogram!\n📚 Я учусь на каждом нашем диалоге."

/-- Embedding: `_help`'s text (the triple-quoted literal, verbatim). -/
def help_text : String :=
  "\n🤖 *Nix AI - Telegram Edition*\n\n📋 *Что я умею:*\n\n• Приветствоваться и прощаться\n• Отвечать на вопросы (и учиться, если не знаю ответа)\n• Запоминать информацию\n• Рассказывать о себе\n• Показывать время и дату\n\n🌤️ *Погода:*\nНапиши \"погода\" или нажми кнопку, затем укажи город\n\n💾 *Обучение:*\nЕсли я не знаю ответа - я спрошу у вас и запомню правильный ответ\n\n📊 *Статистика:*\nУзнай сколько я уже знаю и сколько мы общались\n\n🎮 *Дополнительно:*\n• Курсы валют\n• Анекдоты\n• Новости (в разработке)\n\n💡 *Просто общайтесь со мной - я научусь!*\n        "

/-- Embedding: `_how_i_learn`'s text. -/
def how_i_learn_text (ctx : Ctx) (k : Knowledge) : String :=
  let auto := if ctx.modes.auto_correction then "ВКЛ" else "ВЫКЛ"
  let lq := k.statistics.learned_qna
  let cr := k.statistics.corrections_received
  let tm := k.statistics.total_messages
  let tu := k.statistics.total_users
  s!"🧠 *Как я учусь:*\n• Автообучение: {auto}\n• Выучено ответов: {lq}\n• Получено исправлений: {cr}\n• Всего сообщений: {tm}\n• Всего пользователей: {tu}\n\nКогда я не знаю ответа, я спрашиваю у вас! 💡"

/-- Embedding: `_stats_handler`'s text. -/
def stats_text (k : Knowledge) (p : Option UserProfile) : String :=
  let user_stats :=
    match p with
    | some prof =>
      let m := prof.total_messages
      let lc := prof.learned_contributions
      let cc := prof.conversation_count
      s!"\n📊 *Твоя статистика:*\n• Сообщений: {m}\n• Внесено знаний: {lc}\n• Диалогов: {cc}"
    | none => ""
  let tm := k.statistics.total_messages
  let lq := k.statistics.learned_qna
  let tu := k.statistics.total_users
  s!"📈 *Глобальная статистика:*\n• Всего сообщений: {tm}\n• Выучено ответов: {lq}\n• Всего пользователей: {tu}{user_stats}"

/-- The response phrasings a handler draws from in the current state. -/
def handler_variants (h : Handler) (ctx : Ctx) (k : Knowledge) (msg : String)
    (p : Option UserProfile) : List String :=
  match h with
  | .greet =>
    match p.bind (fun prof => truthyS prof.first_name) with
    | some fn => greet_name_options fn
    | none => greetings
  | .goodbye =>
    match p.bind (fun prof => truthyS prof.first_name) with
    | some fn => farewells.map (fun f => s!"Пока, {fn}! {f}")
    | none => farewells
  | .how_are_you => how_are_you_responses
  | .thank_you => thank_you_responses
  | .about_me => [about_me_text k.facts]
  | .about_creator => [k.facts.creator]
  | .help => [help_text]
  | .time =>
    let t := ctx.fmt_time ctx.now
    [s!"🕐 Сейчас {t}"]
  | .date =>
    let d := ctx.fmt_date ctx.now
    [s!"📅 Сегодня {d}"]
  | .remember_info =>
    match remember_extract msg with
    | some fact =>
      [s!"✅ Запомнил: \x27{fact}\x27. Буду помнить об этом! 🧠"]
    | none =>
      ["Пожалуйста, укажи, что именно запомнить. Например: \x27запомни, что Земля круглая\x27"]
  | .recall_info =>
    if k.learned_facts ≠ [] then
      k.learned_facts.map (fun lf => let f := lf.2.fact; s!"📚 Я помню, что: {f}")
    else
      match k.qna.find? (fun pr => pyIn pr.1 (strLower msg)) with
      | some pr => [pr.2]
      | none => ["Я еще мало что знаю. Расскажи мне что-нибудь интересное!"]
  | .clear_memory => ["Для очистки памяти используй команду /clearmemory"]
  | .how_i_learn => [how_i_learn_text ctx k]
  | .weather_handler =>
    ["🌤️ Напиши название города для получения погоды, например: \x27Москва\x27 или \x27погода Москва\x27"]
  | .stats_handler => [stats_text k p]
  | .currency_handler => ["💱 Функция курсов валют в разработке. Скоро будет доступно!"]
  | .news_handler => ["📰 Функция новостей в разработке. Скоро будет доступно!"]
  | .joke_handler => ["В разработке"].map (fun j => s!"😂 {j}")

/-- The knowledge mutation a handler performs (`_remember_info` writes
`learned_facts`; all others leave the document alone). -/
def handler_update (h : Handler) (ctx : Ctx) (k : Knowledge) (msg : String)
    (p : Option UserProfile) : Knowledge :=
  match h with
  | .remember_info =>
    match remember_extract msg with
    | some fact =>
      let key := fact.take 50
      { k with learned_facts :=
          dinsert key ⟨fact, ctx.now, p.map (·.user_id)⟩ k.learned_facts }
    | none => k
  | _ => k

/-- Run a handler: pick one phrasing, apply its update. -/
def run_handler (h : Handler) (ctx : Ctx) (k : Knowledge) (msg : String)
    (p : Option UserProfile) : String × Knowledge :=
  (choice ctx.pick (handler_variants h ctx k msg p), handler_update h ctx k msg p)

/-- Embedding: `self.rules`: each regex is a pure alternation of literals, kept as its
list of alternatives, in registration order. -/
def rules : List (List String × Handler) :=
  [(["привет", "здравствуй", "hello", "hi", "хай"], .greet),
   (["пока", "прощай", "до свидания", "bye"], .goodbye),
   (["как дела", "как ты", "how are you"], .how_are_you),
   (["спасибо", "благодарю", "thanks"], .thank_you),
   (["твое имя", "тебя зовут", "who are you"], .about_me),
   (["создатель", "кто создал", "who created"], .about_creator),
   (["помощь", "help", "что ты умеешь"], .help),
   (["время", "который час", "time"], .time),
   (["дата", "число", "какое число"], .date),
   (["запомни", "remember that"], .remember_info),
   (["что ты знаешь", "расскажи о", "что знаешь"], .recall_info),
   (["очисти память", "забудь все"], .clear_memory),
   (["как учишься", "как обучаешься"], .how_i_learn),
   (["погода", "weather", "прогноз"], .weather_handler),
   (["статистика", "stats", "моя статистика"], .stats_handler),
   (["курс валют", "курс доллара", "курс евро"], .currency_handler),
   (["новости", "news", "что нового"], .news_handler),
   (["анекдот", "шутка", "расскажи шутку"], .joke_handler)]

/-- Embedding: `re.search(pattern, m)` for an alternation of literals. -/
def rule_matches (alts : List String) (m : String) : Bool :=
  alts.any (fun a => pyIn a m)

/-! ## The turn orchestrator (`process_message`) -/

/-- Embedding: `_get_fallback_response`'s phrasings. -/
def fallback_responses (user_message : String) : List String :=
  [s!"Извини, я не совсем понял вопрос: \x27{user_message}\x27. Можешь переформулировать?",
   s!"Интересно... \x27{user_message}\x27. Давай поговорим о чем-нибудь другом?",
   "Пока я не готов ответить на этот вопрос. Спроси что-нибудь другое!",
   "Хм, мне нужно подумать над этим. А пока могу ответить на другие вопросы!",
   "Я еще учусь! Спроси меня о чем-то другом, например о погоде или времени."]

/-- The dict returned by `process_message`: the response, the follow-up
flag, the `action` value, and (when present) the `correction_data` question. -/
structure Outcome where
  response : String
  needs_followup : Bool
  action : Option String
  correction_data : Option String := none
deriving DecidableEq

/-- The state after a turn: the outcome dict, the new knowledge document
and weather cache, and whether the weather provider was consulted. -/
structure ProcResult where
  outcome : Outcome
  knowledge : Knowledge
  cache : WCache
  provider_called : Bool
deriving DecidableEq

/-- The `correction_data` argument: `none` is a falsy (absent or empty)
dict, `some q?` a truthy dict whose `.get("question")` is `q?`. -/
abbrev CorrectionArg := Option (Option String)

/-- The truthy pending question of a correction turn, if any: the flag is
set, the dict truthy, and the question present and non-empty. -/
def correction_question (is_corr : Bool) (cd : CorrectionArg) : Option String :=
  if is_corr then
    match cd with
    | some (some q) => if q = "" then none else some q
    | _ => none
  else none

/-- The knowledge mutation of the correction branch (lines 596–604): store
`qna[question.lower()] = answer`, bump the user's `learned_contributions`,
bump global `learned_qna` and `corrections_received`. -/
def apply_correction (k : Knowledge) (now : Int) (user_id : Int) (q answer : String) : Knowledge :=
  let k3 := { k with qna := dinsert (strLower q) answer k.qna }
  let k4 := update_user_stats k3 now user_id "learned_contributions"
  { k4 with statistics :=
      { k4.statistics with
        learned_qna := k4.statistics.learned_qna + 1
        corrections_received := k4.statistics.corrections_received + 1 } }

/-- Embedding: `process_message`. -/
def process_message (k : Knowledge) (cache : WCache) (cfg : WeatherConfig) (ctx : Ctx)
    (user_id : Int) (user_message : String)
    (username first_name last_name : Option String)
    (is_corr : Bool) (cd : CorrectionArg) : ProcResult :=
  let pr := get_or_create_user_profile k ctx.now user_id username first_name last_name
  let profile := pr.1
  let k2 := update_user_stats pr.2 ctx.now user_id "total_messages"
  match correction_question is_corr cd with
  | some q =>
    let answer := user_message
    ⟨⟨s!"✅ Отлично! Запомнил: на вопрос \x27{q}\x27 нужно отвечать: \x27{answer}\x27",
      false, none, none⟩, apply_correction k2 ctx.now user_id q answer, cache, false⟩
  | none =>
    let low := strLower user_message
    match rules.find? (fun r => rule_matches r.1 low) with
    | some rl =>
      let rh := run_handler rl.2 ctx k2 user_message (some profile)
      ⟨⟨rh.1, false, none, none⟩, learn_from_interaction rh.2 user_message rh.1, cache, false⟩
    | none =>
      match check_qna_match k2.qna user_message with
      | some ans =>
        ⟨⟨ans, false, none, none⟩, learn_from_interaction k2 user_message ans, cache, false⟩
      | none =>
        if ["погода", "weather", "прогноз"].any (fun w => pyIn w low) then
          match weather_city user_message with
          | some city =>
            let w := get_weather cfg cache ctx.now ctx.provider city
            ⟨⟨w.text, false, none, none⟩, k2, w.cache, w.called⟩
          | none =>
            ⟨⟨"🌤️ Напиши название города для получения погоды", true, some "weather", none⟩,
             k2, cache, false⟩
        else
          let conf := calculate_confidence k2.qna user_message
          if conf < ctx.modes.confidence_threshold ∧ ctx.modes.auto_correction = true then
            ⟨⟨s!"🤔 Я не уверен в ответе на вопрос: \x27{user_message}\x27. Можешь подсказать правильный ответ?",
              true, some "correction", some user_message⟩, k2, cache, false⟩
          else
            ⟨⟨choice ctx.pick (fallback_responses user_message), false, none, none⟩,
             k2, cache, false⟩

/-! ## Specification-side definitions

These follow the wording of the specification (not the code): QnA
resolution as three layered first-hit searches, confidence as a maximum
over all stored questions, and the outcome invariant as a boolean check.
The theorems below compare them with the embedded code. -/

/-- QnA resolution as the spec words it: exact lower-cased key lookup,
else the first stored question (in stored order) containing / contained in
the utterance, else the first stored question sharing at least two
keywords with the utterance; otherwise no answer. -/
def qna_match_spec (qna : List (String × String)) (user_message : String) : Option String :=
  let m := strLower user_message
  match dget? m qna with
  | some a => some a
  | none =>
    match qna.find? (fun p => pyIn p.1 m || pyIn m p.1) with
    | some p => some p.2
    | none =>
      (qna.find? (fun p => decide (2 ≤ inter_size (extract_keywords m) (extract_keywords p.1)))).map (·.2)

/-- Confidence as the spec words it: `0.9` on an exact match, `0.0` when
the utterance yields no keywords, otherwise the maximum over all stored
questions of `|intersection| / max(|utteranceKeywords|, |questionKeywords|)`. -/
def confidence_spec (qna : List (String × String)) (user_message : String) : ℚ :=
  if (dget? (strLower user_message) qna).isSome then 9/10
  else
    let kws := extract_keywords user_message
    if kws = [] then 0
    else
      (qna.map (fun p =>
        (inter_size kws (extract_keywords p.1) : ℚ) /
          ((max kws.length (extract_keywords p.1).length : Nat) : ℚ))).foldr max 0

/-- The turn-outcome invariant of claim C10: the follow-up flag is set
exactly when an action is present, the action is `weather` or
`correction`, and a `correction` action carries the turn's utterance as
the pending question. -/
def outcome_ok (user_message : String) (o : Outcome) : Bool :=
  (o.needs_followup == o.action.isSome) &&
  (match o.action with
   | none => true
   | some s =>
     (s == "weather" || s == "correction") &&
     (if s == "correction" then o.correction_data == some user_message else true))

/-- Well-formedness of the profile table: each entry is keyed by the id
stored in its profile (true of every state the program builds, since
`_save_user_profile` writes at key `profile.user_id`). -/
def profiles_ok (k : Knowledge) : Bool :=
  k.user_profiles.all (fun pr => pr.1 == pr.2.user_id)

/-- The keys of the profile table. -/
def profile_keys (k : Knowledge) : List Int :=
  k.user_profiles.map (·.1)

/-! ## Association-list lemmas -/

theorem replace_lookup [BEq κ] [LawfulBEq κ] (a : κ) (v : α) :
    ∀ d : List (κ × α), d.any (fun p => p.1 == a) = true →
      dget? a (d.map (fun p => if p.1 == a then (a, v) else p)) = some v := by
  intro d
  induction d with
  | nil => intro h; simp at h
  | cons hd tl ih =>
    intro hany
    cases hb : hd.1 == a with
    | false =>
      have htl : tl.any (fun p => p.1 == a) = true := by
        simpa [List.any_cons, hb] using hany
      simpa [dget?, List.find?, hb] using ih htl
    | true => simp [dget?, List.find?, hb]

theorem append_lookup [BEq κ] [LawfulBEq κ] (a : κ) (v : α) :
    ∀ d : List (κ × α), d.any (fun p => p.1 == a) = false →
      dget? a (d ++ [(a, v)]) = some v := by
  intro d
  induction d with
  | nil => intro _; simp [dget?, List.find?]
  | cons hd tl ih =>
    intro hany
    cases hb : hd.1 == a with
    | false =>
      have htl : tl.any (fun p => p.1 == a) = false := by
        simpa [List.any_cons, hb] using hany
      simpa [dget?, List.find?, hb] using ih htl
    | true => simp [List.any_cons, hb] at hany

theorem dget?_dinsert_self [BEq κ] [LawfulBEq κ] (a : κ) (v : α) (d : List (κ × α)) :
    dget? a (dinsert a v d) = some v := by
  unfold dinsert
  cases hany : d.any (fun p => p.1 == a) with
  | false => rw [if_neg (by simp)]; exact append_lookup a v d hany
  | true => rw [if_pos rfl]; exact replace_lookup a v d hany

theorem dget?_none_not_any [BEq κ] (a : κ) (d : List (κ × α)) :
    dget? a d = none → d.any (fun p => p.1 == a) = false := by
  induction d with
  | nil => intro _; rfl
  | cons hd tl ih =>
    intro h
    simp only [dget?, List.find?] at h
    cases hb : hd.1 == a
    · simp only [hb] at h
      simp only [List.any_cons, hb, Bool.false_or]
      exact ih (by simpa [dget?] using h)
    · simp [hb] at h

theorem dget?_some_any [BEq κ] (a : κ) (v : α) (d : List (κ × α)) :
    dget? a d = some v → d.any (fun p => p.1 == a) = true := by
  induction d with
  | nil => intro h; simp [dget?] at h
  | cons hd tl ih =>
    intro h
    simp only [dget?, List.find?] at h
    cases hb : hd.1 == a
    · simp only [hb] at h
      simp only [List.any_cons, hb, Bool.false_or]
      exact ih (by simpa [dget?] using h)
    · simp [List.any_cons, hb]

/-- Inserting at a present key leaves the key list unchanged. -/
theorem keys_dinsert_present [BEq κ] [LawfulBEq κ] (a : κ) (v : α) (d : List (κ × α))
    (h : d.any (fun p => p.1 == a) = true) :
    (dinsert a v d).map (·.1) = d.map (·.1) := by
  unfold dinsert
  rw [if_pos h, List.map_map, List.map_inj_left]
  intro p _
  by_cases hp : p.1 == a
  · simp [hp, eq_of_beq hp]
  · simp [hp]

/-- Inserting at an absent key appends it to the key list. -/
theorem keys_dinsert_absent [BEq κ] (a : κ) (v : α) (d : List (κ × α))
    (h : d.any (fun p => p.1 == a) = false) :
    (dinsert a v d).map (·.1) = d.map (·.1) ++ [a] := by
  unfold dinsert
  rw [if_neg (by simp [h]), List.map_append]
  rfl

theorem dget?_some_mem [BEq κ] (a : κ) (v : α) (d : List (κ × α)) :
    dget? a d = some v → ∃ e ∈ d, (e.1 == a) = true ∧ e.2 = v := by
  intro h
  unfold dget? at h
  cases hf : d.find? (fun p => p.1 == a) with
  | none => rw [hf] at h; simp at h
  | some e =>
    rw [hf] at h
    refine ⟨e, List.mem_of_find?_eq_some hf, ?_, by simpa using h⟩
    have h2 := List.find?_some hf
    simpa using h2

theorem dget?_none_of_key_not_mem [BEq κ] [LawfulBEq κ] (a : κ) (d : List (κ × α))
    (h : a ∉ d.map (·.1)) : dget? a d = none := by
  induction d with
  | nil => rfl
  | cons hd tl ih =>
    simp only [List.map_cons, List.mem_cons, not_or] at h
    have hb : (hd.1 == a) = false := by
      cases hb : hd.1 == a
      · rfl
      · exact absurd (eq_of_beq hb).symm h.1
    simp only [dget?, List.find?, hb]
    exact ih h.2

theorem dget?_isSome_of_key_mem [BEq κ] [LawfulBEq κ] (a : κ) (d : List (κ × α))
    (h : a ∈ d.map (·.1)) : (dget? a d).isSome = true := by
  induction d with
  | nil => simp at h
  | cons hd tl ih =>
    simp only [List.map_cons, List.mem_cons] at h
    cases hb : hd.1 == a with
    | true => simp [dget?, List.find?, hb]
    | false =>
      rcases h with h | h
      · exact absurd (by simp [h]) (by simp [hb] : ¬(hd.1 == a) = true)
      · simpa [dget?, List.find?, hb] using ih h

/-! ## Scan-loop characterisations (for C3) -/

theorem qna_contain_scan_eq_find? (m : String) (l : List (String × String)) :
    qna_contain_scan m l = (l.find? (fun p => pyIn p.1 m || pyIn m p.1)).map (·.2) := by
  induction l with
  | nil => rfl
  | cons hd tl ih =>
    cases hp : pyIn hd.1 m || pyIn m hd.1 with
    | false => simpa [qna_contain_scan, List.find?, hp] using ih
    | true => simp [qna_contain_scan, List.find?, hp]

theorem qna_keyword_scan_eq_find? (kws : List String) (l : List (String × String)) :
    qna_keyword_scan kws l
      = (l.find? (fun p => decide (2 ≤ inter_size kws (extract_keywords p.1)))).map (·.2) := by
  induction l with
  | nil => rfl
  | cons hd tl ih =>
    by_cases hp : 2 ≤ inter_size kws (extract_keywords hd.1)
    · simp [qna_keyword_scan, List.find?, hp]
    · simpa [qna_keyword_scan, List.find?, hp] using ih

/-! ## Confidence-loop characterisation (for C4) -/

theorem foldr_max_nonneg (l : List ℚ) (h : ∀ x ∈ l, 0 ≤ x) : 0 ≤ l.foldr max 0 := by
  induction l with
  | nil => simp
  | cons hd tl ih =>
    simp only [List.foldr_cons]
    exact le_max_of_le_right (ih (fun x hx => h x (List.mem_cons_of_mem _ hx)))

theorem confidence_ratio_nonneg (kws qk : List String) :
    (0 : ℚ) ≤ (inter_size kws qk : ℚ) / ((max kws.length qk.length : Nat) : ℚ) :=
  div_nonneg (by positivity) (by positivity)

theorem filter_contains_nil (l : List String) :
    l.filter (fun w => ([] : List String).contains w) = [] := by
  induction l with
  | nil => rfl
  | cons hd tl ih => simp [List.filter, ih, List.contains]

theorem inter_size_nil (kws : List String) : inter_size kws [] = 0 := by
  unfold inter_size
  rw [filter_contains_nil]
  rfl

/-- Every element of the spec-side ratio list is non-negative. -/
theorem map_ratio_nonneg (kws : List String) (l : List (String × String)) :
    ∀ x ∈ l.map (fun p =>
        (inter_size kws (extract_keywords p.1) : ℚ) /
          ((max kws.length (extract_keywords p.1).length : Nat) : ℚ)), (0 : ℚ) ≤ x := by
  intro x hx
  rcases List.mem_map.mp hx with ⟨q, _, rfl⟩
  exact confidence_ratio_nonneg kws (extract_keywords q.1)

theorem confidence_loop_eq (kws : List String) (l : List (String × String)) :
    ∀ b : ℚ, 0 ≤ b → confidence_loop kws b l
      = max b ((l.map (fun p =>
          (inter_size kws (extract_keywords p.1) : ℚ) /
            ((max kws.length (extract_keywords p.1).length : Nat) : ℚ))).foldr max 0) := by
  induction l with
  | nil =>
    intro b hb
    simp [confidence_loop, max_eq_left hb]
  | cons hd tl ih =>
    intro b hb
    unfold confidence_loop
    by_cases hq : extract_keywords hd.1 = []
    · rw [if_pos hq, ih b hb]
      have hzero : (inter_size kws (extract_keywords hd.1) : ℚ) /
          ((max kws.length (extract_keywords hd.1).length : Nat) : ℚ) = 0 := by
        rw [hq, inter_size_nil]
        simp
      rw [List.map_cons, List.foldr_cons, hzero]
      rw [max_comm (0 : ℚ), max_eq_left (foldr_max_nonneg _ (map_ratio_nonneg kws tl))]
    · rw [if_neg hq,
        ih _ (le_max_of_le_left hb), List.map_cons, List.foldr_cons, max_assoc]

/-! ## Dispatch helper lemmas (for C5/C6) -/

/-- Lemma: `find?` returns the `i`-th element when it satisfies the predicate and
everything before it does not: first-match-wins for ordered scans. -/
theorem find?_of_take_all (p : α → Bool) :
    ∀ (l : List α) (i : Nat) (x : α),
      (l.take i).all (fun y => !(p y)) = true → l.get? i = some x → p x = true →
      l.find? p = some x := by
  intro l
  induction l with
  | nil => intro i x _ h2 _; simp at h2
  | cons hd tl ih =>
    intro i x h1 h2 h3
    cases i with
    | zero =>
      simp only [List.get?] at h2
      injection h2 with h2
      subst h2
      simp [List.find?, h3]
    | succ n =>
      rw [List.take_succ_cons, List.all_cons, Bool.and_eq_true] at h1
      have hhd : p hd = false := by
        cases hp : p hd
        · rfl
        · rw [hp] at h1; simp at h1
      simp only [List.find?, hhd]
      exact ih n x h1.2 (by simpa using h2) h3

theorem getD_mem (l : List String) (i : Nat) (h : i < l.length) : l.getD i "" ∈ l := by
  induction l generalizing i with
  | nil => simp at h
  | cons hd tl ih =>
    cases i with
    | zero => exact List.mem_cons_self hd tl
    | succ n =>
      exact List.mem_cons_of_mem hd (ih n (by simpa using h))

/-- Lemma: `random.choice` always returns an element of a non-empty list. -/
theorem choice_mem (pick : Nat) (l : List String) (h : l ≠ []) : choice pick l ∈ l := by
  unfold choice
  exact getD_mem l _ (Nat.mod_lt _ (List.length_pos.mpr h))

/-- No handler's phrasing list is empty. -/
theorem handler_variants_ne_nil (h : Handler) (ctx : Ctx) (k : Knowledge) (msg : String)
    (p : Option UserProfile) : handler_variants h ctx k msg p ≠ [] := by
  cases h
  case greet =>
    unfold handler_variants
    cases p.bind (fun prof => truthyS prof.first_name) <;>
      simp [greetings, greet_name_options]
  case goodbye =>
    unfold handler_variants
    cases p.bind (fun prof => truthyS prof.first_name) <;> simp [farewells]
  case remember_info =>
    unfold handler_variants
    cases remember_extract msg <;> simp
  case recall_info =>
    unfold handler_variants
    by_cases hl : k.learned_facts ≠ []
    · simp only [if_pos hl]
      simpa using hl
    · simp only [if_neg hl]
      cases k.qna.find? (fun pr => pyIn pr.1 (strLower msg)) <;> simp
  all_goals simp [handler_variants, how_are_you_responses, thank_you_responses,
    greetings, farewells]

/-! ## Claim C3 -/

/-- Claim C3: QnA lookup resolves exact lower-cased key match first, then
containment in stored order, then keyword overlap of size at least two in
stored order with no ranking, and returns nothing if none hit; lookup is
case-insensitive as in the stored-question example. -/
theorem c3_qna_resolution_order :
    (∀ (qna : List (String × String)) (msg : String),
        check_qna_match qna msg = qna_match_spec qna msg) ∧
    check_qna_match [("столица франции", "Париж")] "Столица Франции" = some "Париж" ∧
    check_qna_match [("столица франции", "Париж")] "СТОЛИЦА ФРАНЦИИ" = some "Париж" := by
  refine ⟨?_, by decide, by decide⟩
  intro qna msg
  simp only [check_qna_match, qna_match_spec]
  cases hd : dget? (strLower msg) qna with
  | some a => rfl
  | none =>
    simp only
    cases hf : qna.find? (fun p => pyIn p.1 (strLower msg) || pyIn (strLower msg) p.1) with
    | some e => simp [qna_contain_scan_eq_find?, hf]
    | none => simp [qna_contain_scan_eq_find?, qna_keyword_scan_eq_find?, hf]

/-! ## Claim C4 -/

/-- Claim C4: confidence is exactly `0.9` on an exact lower-cased match,
`0.0` when the utterance yields no keywords, and otherwise the maximum
over all stored questions of `|intersection| / max(|utteranceKeywords|,
|questionKeywords|)`. -/
theorem c4_confidence_maximum :
    (∀ (qna : List (String × String)) (msg : String),
        calculate_confidence qna msg = confidence_spec qna msg) ∧
    calculate_confidence [("как тебя зовут", "Меня зовут Nix AI")] "Как тебя ЗОВУТ" = 9/10 ∧
    calculate_confidence [("что такое python", "Python — это язык программирования")] "ты и я" = 0 := by
  refine ⟨?_, ?_, ?_⟩
  case refine_2 =>
    have hd : (dget? (strLower "Как тебя ЗОВУТ")
        [("как тебя зовут", "Меня зовут Nix AI")]).isSome = true := by decide
    simp [calculate_confidence, hd]
  case refine_3 =>
    have hd : (dget? (strLower "ты и я")
        [("что такое python", "Python — это язык программирования")]).isSome = false := by decide
    have hk : extract_keywords "ты и я" = [] := by decide
    simp [calculate_confidence, hd, hk]
  intro qna msg
  simp only [calculate_confidence, confidence_spec]
  by_cases hd : (dget? (strLower msg) qna).isSome = true
  · simp [hd]
  · simp only [hd, if_false, Bool.false_eq_true]
    by_cases hk : extract_keywords msg = []
    · simp [hk]
    · simp only [hk, if_neg hk]
      rw [confidence_loop_eq (extract_keywords msg) qna 0 le_rfl]
      exact max_eq_right (foldr_max_nonneg _ (map_ratio_nonneg _ qna))

/-! ## Preservation lemmas for the state operations -/

theorem goc_qna (k : Knowledge) (now : Int) (uid : Int) (un fn ln : Option String) :
    (get_or_create_user_profile k now uid un fn ln).2.qna = k.qna := by
  unfold get_or_create_user_profile save_user_profile
  cases dget? uid k.user_profiles <;> rfl

theorem goc_statistics_counters (k : Knowledge) (now : Int) (uid : Int) (un fn ln : Option String) :
    (get_or_create_user_profile k now uid un fn ln).2.statistics.learned_qna
        = k.statistics.learned_qna ∧
    (get_or_create_user_profile k now uid un fn ln).2.statistics.corrections_received
        = k.statistics.corrections_received ∧
    (get_or_create_user_profile k now uid un fn ln).2.statistics.total_messages
        = k.statistics.total_messages := by
  unfold get_or_create_user_profile save_user_profile
  cases dget? uid k.user_profiles <;> exact ⟨rfl, rfl, rfl⟩

theorem goc_total_users (k : Knowledge) (now : Int) (uid : Int) (un fn ln : Option String) :
    (get_or_create_user_profile k now uid un fn ln).2.statistics.total_users
      = (if (dget? uid k.user_profiles).isSome then k.statistics.total_users
         else k.statistics.total_users + 1) := by
  unfold get_or_create_user_profile save_user_profile
  cases hget : dget? uid k.user_profiles <;> simp [hget]

theorem goc_profiles (k : Knowledge) (now : Int) (uid : Int) (un fn ln : Option String) :
    (get_or_create_user_profile k now uid un fn ln).2.user_profiles
      = dinsert (get_or_create_user_profile k now uid un fn ln).1.user_id
          (get_or_create_user_profile k now uid un fn ln).1 k.user_profiles := by
  unfold get_or_create_user_profile save_user_profile
  cases dget? uid k.user_profiles <;> rfl

/-- With a well-formed profile table, the looked-up/created profile carries
the requested id. -/
theorem goc_user_id (k : Knowledge) (now : Int) (uid : Int) (un fn ln : Option String)
    (wf : profiles_ok k = true) :
    (get_or_create_user_profile k now uid un fn ln).1.user_id = uid := by
  unfold get_or_create_user_profile
  cases hget : dget? uid k.user_profiles with
  | none => rfl
  | some p0 =>
    rcases dget?_some_mem uid p0 k.user_profiles hget with ⟨e, he, hbeq, hev⟩
    have hkey : e.1 = uid := by simpa using hbeq
    have hwf : e.1 = e.2.user_id := by
      have := (List.all_eq_true.mp wf) e he
      simpa using this
    have huid : p0.user_id = uid := by rw [← hev, ← hwf, hkey]
    simp only
    split_ifs <;> exact huid

theorem goc_learned_contributions (k : Knowledge) (now : Int) (uid : Int)
    (un fn ln : Option String) :
    (get_or_create_user_profile k now uid un fn ln).1.learned_contributions
      = ((dget? uid k.user_profiles).map (fun p => p.learned_contributions)).getD 0 := by
  unfold get_or_create_user_profile
  cases hget : dget? uid k.user_profiles with
  | none => rfl
  | some p0 => simp only [Option.map_some, Option.getD_some]; split_ifs <;> rfl

theorem goc_conversation_count_new (k : Knowledge) (now : Int) (uid : Int)
    (un fn ln : Option String) (hget : dget? uid k.user_profiles = none) :
    (get_or_create_user_profile k now uid un fn ln).1.conversation_count = 1 := by
  unfold get_or_create_user_profile
  rw [hget]

/-- Inserting a profile at its own id preserves table well-formedness. -/
theorem profiles_all_dinsert (d : List (Int × UserProfile)) (v : UserProfile)
    (hall : d.all (fun pr => pr.1 == pr.2.user_id) = true) :
    (dinsert v.user_id v d).all (fun pr => pr.1 == pr.2.user_id) = true := by
  unfold dinsert
  split
  · rw [List.all_eq_true]
    intro x hx
    rcases List.mem_map.mp hx with ⟨y, hy, rfl⟩
    by_cases hb : (y.1 == v.user_id) = true
    · simp [hb]
    · simp only [hb, if_false]
      exact (List.all_eq_true.mp hall) y hy
  · rw [List.all_append, Bool.and_eq_true]
    exact ⟨hall, by simp⟩

theorem goc_wf (k : Knowledge) (now : Int) (uid : Int) (un fn ln : Option String)
    (wf : profiles_ok k = true) :
    profiles_ok (get_or_create_user_profile k now uid un fn ln).2 = true := by
  unfold profiles_ok
  rw [goc_profiles]
  exact profiles_all_dinsert _ _ wf

theorem goc_keys (k : Knowledge) (now : Int) (uid : Int) (un fn ln : Option String)
    (wf : profiles_ok k = true) :
    profile_keys (get_or_create_user_profile k now uid un fn ln).2
      = (if (dget? uid k.user_profiles).isSome then profile_keys k
         else profile_keys k ++ [uid]) := by
  unfold profile_keys
  rw [goc_profiles, goc_user_id k now uid un fn ln wf]
  cases hget : dget? uid k.user_profiles with
  | none =>
    simp only [Option.isSome_none, Bool.false_eq_true, if_false]
    exact keys_dinsert_absent uid _ _ (dget?_none_not_any uid _ hget)
  | some p =>
    simp only [Option.isSome_some, if_true]
    exact keys_dinsert_present uid _ _ (dget?_some_any uid p _ hget)

theorem uus_qna (k : Knowledge) (now : Int) (uid : Int) (f : String) :
    (update_user_stats k now uid f).qna = k.qna := by
  unfold update_user_stats
  cases dget? uid k.user_profiles <;> split_ifs <;> rfl

theorem uus_keys (k : Knowledge) (now : Int) (uid : Int) (f : String) :
    profile_keys (update_user_stats k now uid f) = profile_keys k := by
  unfold update_user_stats profile_keys
  cases hget : dget? uid k.user_profiles with
  | none => split_ifs <;> rfl
  | some p =>
    have hany := dget?_some_any uid p _ hget
    split_ifs <;> exact keys_dinsert_present uid _ _ hany

theorem uus_wf (k : Knowledge) (now : Int) (uid : Int) (f : String)
    (wf : profiles_ok k = true) :
    profiles_ok (update_user_stats k now uid f) = true := by
  unfold update_user_stats profiles_ok
  cases hget : dget? uid k.user_profiles with
  | none => split_ifs <;> exact wf
  | some p =>
    rcases dget?_some_mem uid p k.user_profiles hget with ⟨e, he, hbeq, hev⟩
    have hkey : e.1 = uid := by simpa using hbeq
    have hwf : e.1 = e.2.user_id := by
      have := (List.all_eq_true.mp wf) e he
      simpa using this
    have huid : p.user_id = uid := by rw [← hev, ← hwf, hkey]
    have hins : ∀ p1 : UserProfile, p1.user_id = uid →
        (dinsert uid p1 k.user_profiles).all (fun pr => pr.1 == pr.2.user_id) = true := by
      intro p1 h1
      rw [← h1]
      exact profiles_all_dinsert _ _ wf
    split_ifs <;> exact hins _ huid

theorem uus_stats_total_messages (k : Knowledge) (now : Int) (uid : Int) :
    (update_user_stats k now uid "total_messages").statistics
      = { k.statistics with total_messages := k.statistics.total_messages + 1 } := by
  unfold update_user_stats
  cases dget? uid k.user_profiles <;> simp

theorem uus_stats_learned_contributions (k : Knowledge) (now : Int) (uid : Int) :
    (update_user_stats k now uid "learned_contributions").statistics = k.statistics := by
  unfold update_user_stats
  cases dget? uid k.user_profiles <;> simp

theorem uus_profile_total_messages (k : Knowledge) (now : Int) (uid : Int) (p : UserProfile)
    (hget : dget? uid k.user_profiles = some p) :
    dget? uid (update_user_stats k now uid "total_messages").user_profiles
      = some { p with total_messages := p.total_messages + 1, last_active := now } := by
  unfold update_user_stats
  rw [hget]
  simpa using dget?_dinsert_self uid
    ({ p with total_messages := p.total_messages + 1, last_active := now }) k.user_profiles

theorem uus_profile_learned_contributions (k : Knowledge) (now : Int) (uid : Int) (p : UserProfile)
    (hget : dget? uid k.user_profiles = some p) :
    dget? uid (update_user_stats k now uid "learned_contributions").user_profiles
      = some { p with learned_contributions := p.learned_contributions + 1, last_active := now } := by
  unfold update_user_stats
  rw [hget]
  simpa using dget?_dinsert_self uid
    ({ p with learned_contributions := p.learned_contributions + 1, last_active := now }) k.user_profiles

theorem lfi_preserved (k : Knowledge) (q a : String) :
    (learn_from_interaction k q a).user_profiles = k.user_profiles ∧
    (learn_from_interaction k q a).statistics = k.statistics ∧
    (learn_from_interaction k q a).qna = k.qna := by
  simp only [learn_from_interaction]
  split_ifs <;> exact ⟨rfl, rfl, rfl⟩

theorem handler_update_preserved (h : Handler) (ctx : Ctx) (k : Knowledge) (msg : String)
    (p : Option UserProfile) :
    (handler_update h ctx k msg p).user_profiles = k.user_profiles ∧
    (handler_update h ctx k msg p).statistics = k.statistics ∧
    (handler_update h ctx k msg p).qna = k.qna := by
  cases h <;> try exact ⟨rfl, rfl, rfl⟩
  unfold handler_update
  cases remember_extract msg <;> exact ⟨rfl, rfl, rfl⟩

/-! ## Claim C1 -/

theorem correction_question_some (q : String) (hq : q ≠ "") :
    correction_question true (some (some q)) = some q := by
  simp [correction_question, hq]

theorem apply_correction_qna (k : Knowledge) (now : Int) (uid : Int) (q answer : String) :
    dget? (strLower q) (apply_correction k now uid q answer).qna = some answer := by
  simp only [apply_correction]
  rw [uus_qna]
  exact dget?_dinsert_self _ _ _

theorem apply_correction_profile (k : Knowledge) (now : Int) (uid : Int) (q answer : String)
    (p : UserProfile) (hget : dget? uid k.user_profiles = some p) :
    dget? uid (apply_correction k now uid q answer).user_profiles
      = some { p with learned_contributions := p.learned_contributions + 1, last_active := now } := by
  simp only [apply_correction]
  have hget3 : dget? uid
      ({ k with qna := dinsert (strLower q) answer k.qna } : Knowledge).user_profiles
      = some p := hget
  rw [uus_profile_learned_contributions _ now uid _ hget3]

theorem apply_correction_stats (k : Knowledge) (now : Int) (uid : Int) (q answer : String) :
    (apply_correction k now uid q answer).statistics.learned_qna
        = k.statistics.learned_qna + 1 ∧
    (apply_correction k now uid q answer).statistics.corrections_received
        = k.statistics.corrections_received + 1 ∧
    (apply_correction k now uid q answer).statistics.total_users
        = k.statistics.total_users := by
  simp only [apply_correction]
  rw [uus_stats_learned_contributions]
  exact ⟨rfl, rfl, rfl⟩

theorem apply_correction_keys (k : Knowledge) (now : Int) (uid : Int) (q answer : String) :
    profile_keys (apply_correction k now uid q answer) = profile_keys k := by
  simp only [apply_correction]
  have h := uus_keys ({ k with qna := dinsert (strLower q) answer k.qna } : Knowledge) now uid
    "learned_contributions"
  exact h

theorem apply_correction_wf (k : Knowledge) (now : Int) (uid : Int) (q answer : String)
    (wf : profiles_ok k = true) :
    profiles_ok (apply_correction k now uid q answer) = true := by
  simp only [apply_correction]
  exact uus_wf ({ k with qna := dinsert (strLower q) answer k.qna } : Knowledge) now uid
    "learned_contributions" wf

/-- Claim C1: a correction turn with pending question `Q` and reply `A`
stores `qna[Q.lower()] = A` verbatim, bumps the acting user's
`learned_contributions` and the global `learned_qna` and
`corrections_received` each by exactly one, returns the confirmation
outcome with `needs_followup = false`, and short-circuits all further
matching (no rule/QnA/weather/confidence path runs; the weather provider
is untouched and the cache unchanged). -/
theorem c1_correction_roundtrip
    (k : Knowledge) (cache : WCache) (cfg : WeatherConfig) (ctx : Ctx)
    (uid : Int) (answer : String) (un fn ln : Option String) (q : String)
    (hq : q ≠ "") (wf : profiles_ok k = true)
    (r : ProcResult)
    (hr : r = process_message k cache cfg ctx uid answer un fn ln true (some (some q))) :
    dget? (strLower q) r.knowledge.qna = some answer ∧
    (dget? uid r.knowledge.user_profiles).map (fun p => p.learned_contributions)
      = some (((dget? uid k.user_profiles).map (fun p => p.learned_contributions)).getD 0 + 1) ∧
    r.knowledge.statistics.learned_qna = k.statistics.learned_qna + 1 ∧
    r.knowledge.statistics.corrections_received = k.statistics.corrections_received + 1 ∧
    r.outcome.response
      = s!"✅ Отлично! Запомнил: на вопрос \x27{q}\x27 нужно отвечать: \x27{answer}\x27" ∧
    r.outcome.needs_followup = false ∧
    r.outcome.action = none ∧
    r.outcome.correction_data = none ∧
    r.provider_called = false ∧
    r.cache = cache := by
  subst hr
  have hgetg : dget? uid
      (get_or_create_user_profile k ctx.now uid un fn ln).2.user_profiles
      = some (get_or_create_user_profile k ctx.now uid un fn ln).1 := by
    rw [goc_profiles, goc_user_id k ctx.now uid un fn ln wf]
    exact dget?_dinsert_self uid _ _
  have hget2 := uus_profile_total_messages
    (get_or_create_user_profile k ctx.now uid un fn ln).2 ctx.now uid _ hgetg
  simp only [process_message, correction_question_some q hq]
  refine ⟨?_, ?_, ?_, ?_, trivial, trivial, trivial, trivial, trivial, trivial⟩
  · exact apply_correction_qna _ ctx.now uid q answer
  · rw [apply_correction_profile _ ctx.now uid q answer _ hget2,
      goc_learned_contributions]
    rfl
  · rw [(apply_correction_stats _ ctx.now uid q answer).1,
      uus_stats_total_messages]
    exact congrArg (· + 1) (goc_statistics_counters k ctx.now uid un fn ln).1
  · rw [(apply_correction_stats _ ctx.now uid q answer).2.1,
      uus_stats_total_messages]
    exact congrArg (· + 1) (goc_statistics_counters k ctx.now uid un fn ln).2.1

theorem c1_correction_roundtrip_witness :
    dget? "столица франции"
      (process_message (default_knowledge "t0") [] {} {} 1 "Париж" none none none true
        (some (some "Столица Франции"))).knowledge.qna = some "Париж" ∧
    (process_message (default_knowledge "t0") [] {} {} 1 "Париж" none none none true
        (some (some "Столица Франции"))).knowledge.statistics.learned_qna = 1 ∧
    (process_message (default_knowledge "t0") [] {} {} 1 "Париж" none none none true
        (some (some "Столица Франции"))).knowledge.statistics.corrections_received = 1 := by
  have h := c1_correction_roundtrip (default_knowledge "t0") [] {} {} 1 "Париж"
    none none none "Столица Франции" (by decide) (by decide) _ rfl
  have hs : strLower "Столица Франции" = "столица франции" := by decide
  refine ⟨?_, ?_, ?_⟩
  · have h1 := h.1
    rw [hs] at h1
    exact h1
  · exact h.2.2.1
  · exact h.2.2.2.1

/-! ## Claim C10 -/

/-- Claim C10: every outcome of `process_message` sets `needs_followup`
exactly when an `action` is present, the action is only ever `weather` or
`correction`, and a `correction` action carries the turn's utterance as
the pending question. -/
theorem c10_outcome_invariant (k : Knowledge) (cache : WCache) (cfg : WeatherConfig)
    (ctx : Ctx) (uid : Int) (msg : String) (un fn ln : Option String)
    (ic : Bool) (cd : CorrectionArg) :
    outcome_ok msg (process_message k cache cfg ctx uid msg un fn ln ic cd).outcome = true := by
  simp only [process_message]
  split
  · simp [outcome_ok]
  · split
    · simp [outcome_ok]
    · split
      · simp [outcome_ok]
      · split
        · split
          · simp [outcome_ok]
          · simp [outcome_ok]
        · split
          · simp [outcome_ok]
          · simp [outcome_ok]

/-! ## Claim C6 -/

/-- Claim C6: rule dispatch scans the registered `(pattern, handler)`
bindings in registration order and the first pattern matching the
lower-cased utterance wins — if the `i`-th rule matches and no earlier one
does, the turn (when not flagged as a correction) returns that rule's
handler output, which is one of its declared response variants, with
`needs_followup = false`. -/
theorem c6_rule_dispatch_first_match
    (k : Knowledge) (cache : WCache) (cfg : WeatherConfig) (ctx : Ctx)
    (uid : Int) (msg : String) (un fn ln : Option String)
    (i : Nat) (pat : List String) (hd : Handler)
    (hget : rules.get? i = some (pat, hd))
    (hmatch : rule_matches pat (strLower msg) = true)
    (hbefore : (rules.take i).all (fun rl => !(rule_matches rl.1 (strLower msg))) = true)
    (r : ProcResult)
    (hr : r = process_message k cache cfg ctx uid msg un fn ln false none) :
    r.outcome.needs_followup = false ∧
    r.outcome.action = none ∧
    r.outcome.response
      = (run_handler hd ctx
          (update_user_stats (get_or_create_user_profile k ctx.now uid un fn ln).2
            ctx.now uid "total_messages")
          msg (some (get_or_create_user_profile k ctx.now uid un fn ln).1)).1 ∧
    r.outcome.response
      ∈ handler_variants hd ctx
          (update_user_stats (get_or_create_user_profile k ctx.now uid un fn ln).2
            ctx.now uid "total_messages")
          msg (some (get_or_create_user_profile k ctx.now uid un fn ln).1) := by
  subst hr
  have hfind : rules.find? (fun rl => rule_matches rl.1 (strLower msg)) = some (pat, hd) :=
    find?_of_take_all _ rules i (pat, hd) hbefore hget hmatch
  simp only [process_message, correction_question, if_false, Bool.false_eq_true, hfind]
  refine ⟨trivial, trivial, trivial, ?_⟩
  exact choice_mem _ _ (handler_variants_ne_nil _ _ _ _ _)

theorem c6_rule_dispatch_first_match_witness :
    (process_message (default_knowledge "t0") [] {} {} 1 "спасибо большое"
      none none none false none).outcome.needs_followup = false ∧
    (process_message (default_knowledge "t0") [] {} {} 1 "спасибо большое"
      none none none false none).outcome.response ∈ thank_you_responses := by
  have h := c6_rule_dispatch_first_match (default_knowledge "t0") [] {} {} 1
    "спасибо большое" none none none 3 ["спасибо", "благодарю", "thanks"] .thank_you
    (by decide) (by decide) (by decide) _ rfl
  exact ⟨h.1, h.2.2.2⟩

/-! ## Claim C5 -/

/-- Claim C5: when neither the correction path, nor any rule, nor a QnA
match, nor the weather branch answered the turn, the engine returns the
teach-me prompt with `needs_followup = true`, action `correction` and
`pendingQuestion = utterance` exactly when the computed confidence is
below the configured threshold and auto-learning is on; otherwise one of
the fixed fallback phrasings with `needs_followup = false`. -/
theorem c5_low_confidence_teach
    (k : Knowledge) (cache : WCache) (cfg : WeatherConfig) (ctx : Ctx)
    (uid : Int) (msg : String) (un fn ln : Option String)
    (hrule : rules.find? (fun rl => rule_matches rl.1 (strLower msg)) = none)
    (hqna : check_qna_match k.qna msg = none)
    (hweather : (["погода", "weather", "прогноз"].any (fun w => pyIn w (strLower msg))) = false)
    (r : ProcResult)
    (hr : r = process_message k cache cfg ctx uid msg un fn ln false none) :
    (calculate_confidence k.qna msg < ctx.modes.confidence_threshold ∧
        ctx.modes.auto_correction = true →
      r.outcome = ⟨s!"🤔 Я не уверен в ответе на вопрос: \x27{msg}\x27. Можешь подсказать правильный ответ?",
        true, some "correction", some msg⟩) ∧
    (¬(calculate_confidence k.qna msg < ctx.modes.confidence_threshold ∧
        ctx.modes.auto_correction = true) →
      r.outcome.needs_followup = false ∧ r.outcome.action = none ∧
      r.outcome.response ∈ fallback_responses msg) := by
  subst hr
  have hq2 : (update_user_stats (get_or_create_user_profile k ctx.now uid un fn ln).2
      ctx.now uid "total_messages").qna = k.qna := by
    rw [uus_qna, goc_qna]
  have hqna2 : check_qna_match (update_user_stats
      (get_or_create_user_profile k ctx.now uid un fn ln).2
      ctx.now uid "total_messages").qna msg = none := by
    rw [hq2]; exact hqna
  simp only [process_message, correction_question, if_false, Bool.false_eq_true,
    hrule, hqna2, hweather]
  rw [hq2]
  constructor
  · intro hc
    rw [if_pos hc]
  · intro hc
    rw [if_neg hc]
    exact ⟨rfl, rfl, choice_mem _ _ (by simp [fallback_responses])⟩

theorem c5_low_confidence_teach_witness :
    (process_message (default_knowledge "t0") [] {} {} 1 "xyzxyz"
        none none none false none).outcome
      = ⟨"🤔 Я не уверен в ответе на вопрос: \x27xyzxyz\x27. Можешь подсказать правильный ответ?",
         true, some "correction", some "xyzxyz"⟩ ∧
    (process_message (default_knowledge "t0") [] {}
        { modes := { auto_correction := false } } 1 "xyzxyz"
        none none none false none).outcome.needs_followup = false ∧
    (process_message (default_knowledge "t0") [] {}
        { modes := { auto_correction := false } } 1 "xyzxyz"
        none none none false none).outcome.response ∈ fallback_responses "xyzxyz" := by
  have hconf : calculate_confidence (default_knowledge "t0").qna "xyzxyz" = 0 := by
    have hd : (dget? (strLower "xyzxyz") (default_knowledge "t0").qna).isSome = false := by
      decide
    have hk : ¬(extract_keywords "xyzxyz" = []) := by decide
    have e0 : extract_keywords "xyzxyz" = ["xyzxyz"] := by decide
    have i1 : inter_size (extract_keywords "xyzxyz")
        (extract_keywords "что такое python") = 0 := by decide
    have i2 : inter_size (extract_keywords "xyzxyz")
        (extract_keywords "что такое искусственный интеллект") = 0 := by decide
    have i3 : inter_size (extract_keywords "xyzxyz")
        (extract_keywords "как тебя зовут") = 0 := by decide
    have i4 : inter_size (extract_keywords "xyzxyz")
        (extract_keywords "кто создал тебя") = 0 := by decide
    simp only [calculate_confidence, hd, Bool.false_eq_true, if_false, if_neg hk]
    rw [confidence_loop_eq _ _ 0 le_rfl]
    simp [default_knowledge, i1, i2, i3, i4]
  have h1 := c5_low_confidence_teach (default_knowledge "t0") [] {} {} 1 "xyzxyz"
    none none none (by decide) (by decide) (by decide) _ rfl
  have h2 := c5_low_confidence_teach (default_knowledge "t0") [] {}
    { modes := { auto_correction := false } } 1 "xyzxyz"
    none none none (by decide) (by decide) (by decide) _ rfl
  refine ⟨?_, ?_, ?_⟩
  · exact h1.1 ⟨by rw [hconf]; norm_num, rfl⟩
  · exact (h2.2 (by simp)).1
  · exact (h2.2 (by simp)).2.2

/-! ## Weather lemmas (for C7/C8) -/

theorem cache_fresh_some (cache : WCache) (cl : String) (now t : Int) (w : String)
    (hget : dget? cl cache = some (t, w)) (hlt : now - t < cache_duration) :
    cache_fresh cache cl now = some w := by
  simp [cache_fresh, hget, hlt]

theorem cache_fresh_stale (cache : WCache) (cl : String) (now t : Int) (w : String)
    (hget : dget? cl cache = some (t, w)) (hge : cache_duration ≤ now - t) :
    cache_fresh cache cl now = none := by
  simp [cache_fresh, hget]
  omega

theorem cache_fresh_of_dget?_none (cache : WCache) (cl : String) (now : Int)
    (hget : dget? cl cache = none) : cache_fresh cache cl now = none := by
  simp [cache_fresh, hget]

theorem get_weather_hit (cfg : WeatherConfig) (cache : WCache) (now : Int)
    (provider : String → ProviderResult) (city : String) (w : String)
    (hf : cache_fresh cache (strLower city) now = some w) :
    get_weather cfg cache now provider city = ⟨w, cache, false⟩ := by
  simp [get_weather, hf]

theorem get_weather_no_key (cfg : WeatherConfig) (cache : WCache) (now : Int)
    (provider : String → ProviderResult) (city : String)
    (hf : cache_fresh cache (strLower city) now = none) (hkey : cfg.api_key = "") :
    get_weather cfg cache now provider city = ⟨config_needed_msg, cache, false⟩ := by
  simp [get_weather, hf, hkey]

theorem get_weather_200 (cfg : WeatherConfig) (cache : WCache) (now : Int)
    (provider : String → ProviderResult) (city : String) (d : WeatherData)
    (hf : cache_fresh cache (strLower city) now = none) (hkey : cfg.api_key ≠ "")
    (hp : provider city = .response 200 d) :
    get_weather cfg cache now provider city
      = ⟨format_weather_data d,
         dinsert (strLower city) (now, format_weather_data d) cache, true⟩ := by
  simp [get_weather, hf, hkey, hp]

theorem get_weather_404 (cfg : WeatherConfig) (cache : WCache) (now : Int)
    (provider : String → ProviderResult) (city : String) (d : WeatherData)
    (hf : cache_fresh cache (strLower city) now = none) (hkey : cfg.api_key ≠ "")
    (hp : provider city = .response 404 d) :
    get_weather cfg cache now provider city
      = ⟨s!"🌍 Город \x27{city}\x27 не найден. Проверьте правильность написания.",
         cache, true⟩ := by
  simp [get_weather, hf, hkey, hp]

theorem get_weather_status (cfg : WeatherConfig) (cache : WCache) (now : Int)
    (provider : String → ProviderResult) (city : String) (st : Nat) (d : WeatherData)
    (hf : cache_fresh cache (strLower city) now = none) (hkey : cfg.api_key ≠ "")
    (hp : provider city = .response st d) (h200 : st ≠ 200) (h404 : st ≠ 404) :
    get_weather cfg cache now provider city
      = ⟨s!"⚠️ Ошибка получения погоды. Код ошибки: {st}", cache, true⟩ := by
  simp [get_weather, hf, hkey, hp, h200, h404]

theorem get_weather_failure (cfg : WeatherConfig) (cache : WCache) (now : Int)
    (provider : String → ProviderResult) (city : String) (e : String)
    (hf : cache_fresh cache (strLower city) now = none) (hkey : cfg.api_key ≠ "")
    (hp : provider city = .failure e) :
    get_weather cfg cache now provider city
      = ⟨s!"⚠️ Произошла ошибка при получении погоды: {e}", cache, true⟩ := by
  simp [get_weather, hf, hkey, hp]

/-- If the provider was consulted, the cache had no fresh entry and a key
was configured. -/
theorem get_weather_called_inv (cfg : WeatherConfig) (cache : WCache) (now : Int)
    (provider : String → ProviderResult) (city : String)
    (hcalled : (get_weather cfg cache now provider city).called = true) :
    cache_fresh cache (strLower city) now = none ∧ cfg.api_key ≠ "" := by
  cases hf : cache_fresh cache (strLower city) now with
  | some w => rw [get_weather_hit cfg cache now provider city w hf] at hcalled; simp at hcalled
  | none =>
    by_cases hkey : cfg.api_key = ""
    · rw [get_weather_no_key cfg cache now provider city hf hkey] at hcalled
      simp at hcalled
    · exact ⟨rfl, hkey⟩

/-! ## Claim C7 -/

/-- Claim C7, amended: a fresh cache entry (younger than 30 minutes) is
returned unchanged with no provider call; when the first of two calls
within 30 minutes actually consults the provider and that lookup succeeds
(HTTP 200), the second call returns the same text with no provider call
(so the pair performs at most one provider call); and a call 30 minutes or
more after the cached timestamp re-queries the provider, given a
configured API key.  (As originally stated the at-most-one-call claim
fails for unsuccessful lookups — see the counterexample.) -/
theorem c7_cache_behavior (cfg : WeatherConfig) (cache : WCache)
    (provider : String → ProviderResult) (city : String) :
    (∀ (now t : Int) (w : String),
        dget? (strLower city) cache = some (t, w) → now - t < cache_duration →
        get_weather cfg cache now provider city = ⟨w, cache, false⟩) ∧
    (∀ (d : WeatherData) (t1 t2 : Int),
        provider city = .response 200 d →
        (get_weather cfg cache t1 provider city).called = true →
        t2 - t1 < cache_duration →
        (get_weather cfg (get_weather cfg cache t1 provider city).cache
            t2 provider city).text
          = (get_weather cfg cache t1 provider city).text ∧
        (get_weather cfg (get_weather cfg cache t1 provider city).cache
            t2 provider city).called = false) ∧
    (∀ (now t : Int) (w : String),
        dget? (strLower city) cache = some (t, w) → cache_duration ≤ now - t →
        cfg.api_key ≠ "" →
        (get_weather cfg cache now provider city).called = true) := by
  refine ⟨?_, ?_, ?_⟩
  · intro now t w hget hlt
    exact get_weather_hit cfg cache now provider city w
      (cache_fresh_some cache (strLower city) now t w hget hlt)
  · intro d t1 t2 hp hcalled hlt
    obtain ⟨hf, hkey⟩ := get_weather_called_inv cfg cache t1 provider city hcalled
    have h1 := get_weather_200 cfg cache t1 provider city d hf hkey hp
    rw [h1]
    have hf2 : cache_fresh
        (dinsert (strLower city) (t1, format_weather_data d) cache) (strLower city) t2
        = some (format_weather_data d) :=
      cache_fresh_some _ _ t2 t1 _ (dget?_dinsert_self _ _ _) hlt
    rw [get_weather_hit cfg _ t2 provider city _ hf2]
    exact ⟨rfl, rfl⟩
  · intro now t w hget hge hkey
    have hf := cache_fresh_stale cache (strLower city) now t w hget hge
    cases hp : provider city with
    | response st d =>
      simp only [get_weather, hf, hp]
      rw [if_neg hkey]
      split_ifs <;> rfl
    | failure e =>
      simp only [get_weather, hf, hp]
      rw [if_neg hkey]

/-- Counterexample to claim C7 as stated: with a configured key and a
provider answering 404, two calls for the same city 60 seconds apart both
consult the provider — failed lookups are not cached, so "two calls within
30 minutes perform at most one provider call" is false. -/
theorem c7_cache_behavior_counterexample :
    ((60 : Int) - 0 < cache_duration) ∧
    (get_weather { api_key := "k" } [] 0 (fun _ => .response 404 {}) "Москва").called = true ∧
    (get_weather { api_key := "k" }
      (get_weather { api_key := "k" } [] 0 (fun _ => .response 404 {}) "Москва").cache
      60 (fun _ => .response 404 {}) "Москва").called = true := by
  refine ⟨by decide, by decide, by decide⟩

theorem c7_cache_behavior_witness :
    get_weather { api_key := "k" } [("москва", (0, "W"))] 100
        (fun _ => .failure "down") "Москва"
      = ⟨"W", [("москва", (0, "W"))], false⟩ ∧
    (get_weather { api_key := "k" } [("москва", (0, "W"))] 1800
        (fun _ => .failure "down") "Москва").called = true ∧
    (get_weather { api_key := "k" }
        (get_weather { api_key := "k" } [] 0
          (fun _ => .response 200 {}) "Москва").cache
        60 (fun _ => .response 200 {}) "Москва").called = false := by
  have h := c7_cache_behavior { api_key := "k" } [("москва", (0, "W"))]
    (fun _ => .failure "down") "Москва"
  have h2 := c7_cache_behavior { api_key := "k" } []
    (fun _ => .response 200 ({} : WeatherData)) "Москва"
  refine ⟨?_, ?_, ?_⟩
  · exact h.1 100 0 "W" (by decide) (by decide)
  · exact h.2.2 1800 0 "W" (by decide) (by decide) (by decide)
  · exact (h2.2.1 {} 0 60 rfl (by decide) (by decide)).2

/-! ## Claim C8 -/

/-- Claim C8: `get_weather` is total (transport failure is the `failure`
payload, never an exception) and caches only successful results: with no
fresh cache entry, a missing API key yields the fixed configuration
message without touching the cache or the provider; a provider 404 yields
the city-not-found message, leaves the cache unchanged, and a subsequent
call for that city queries the provider again; any other non-200 status
yields an error message embedding the status, uncached; a transport
failure yields an error message embedding the detail, uncached. -/
theorem c8_weather_errors (cfg : WeatherConfig) (cache : WCache)
    (provider : String → ProviderResult) (city : String) :
    (∀ now : Int, cache_fresh cache (strLower city) now = none → cfg.api_key = "" →
        get_weather cfg cache now provider city = ⟨config_needed_msg, cache, false⟩) ∧
    (∀ (now : Int) (d : WeatherData),
        dget? (strLower city) cache = none → cfg.api_key ≠ "" →
        provider city = .response 404 d →
        get_weather cfg cache now provider city
          = ⟨s!"🌍 Город \x27{city}\x27 не найден. Проверьте правильность написания.",
             cache, true⟩ ∧
        ∀ now2 : Int, (get_weather cfg cache now2 provider city).called = true) ∧
    (∀ (now : Int) (st : Nat) (d : WeatherData),
        cache_fresh cache (strLower city) now = none → cfg.api_key ≠ "" →
        provider city = .response st d → st ≠ 200 → st ≠ 404 →
        get_weather cfg cache now provider city
          = ⟨s!"⚠️ Ошибка получения погоды. Код ошибки: {st}", cache, true⟩) ∧
    (∀ (now : Int) (e : String),
        cache_fresh cache (strLower city) now = none → cfg.api_key ≠ "" →
        provider city = .failure e →
        get_weather cfg cache now provider city
          = ⟨s!"⚠️ Произошла ошибка при получении погоды: {e}", cache, true⟩) := by
  refine ⟨?_, ?_, ?_, ?_⟩
  · intro now hf hkey
    exact get_weather_no_key cfg cache now provider city hf hkey
  · intro now d hget hkey hp
    refine ⟨get_weather_404 cfg cache now provider city d
      (cache_fresh_of_dget?_none cache (strLower city) now hget) hkey hp, ?_⟩
    intro now2
    rw [get_weather_404 cfg cache now2 provider city d
      (cache_fresh_of_dget?_none cache (strLower city) now2 hget) hkey hp]
  · intro now st d hf hkey hp h200 h404
    exact get_weather_status cfg cache now provider city st d hf hkey hp h200 h404
  · intro now e hf hkey hp
    exact get_weather_failure cfg cache now provider city e hf hkey hp

theorem c8_weather_errors_witness :
    get_weather {} [] 5 (fun _ => .failure "down") "Париж"
      = ⟨config_needed_msg, [], false⟩ ∧
    get_weather { api_key := "k" } [] 5 (fun _ => .response 404 {}) "Париж"
      = ⟨"🌍 Город \x27Париж\x27 не найден. Проверьте правильность написания.", [], true⟩ ∧
    (get_weather { api_key := "k" } [] 6 (fun _ => .response 404 {}) "Париж").called = true ∧
    get_weather { api_key := "k" } [] 5 (fun _ => .response 500 {}) "Париж"
      = ⟨"⚠️ Ошибка получения погоды. Код ошибки: 500", [], true⟩ ∧
    get_weather { api_key := "k" } [] 5 (fun _ => .failure "timeout") "Париж"
      = ⟨"⚠️ Произошла ошибка при получении погоды: timeout", [], true⟩ := by
  have hA := (c8_weather_errors {} [] (fun _ => .failure "down") "Париж").1 5
    (by decide) (by decide)
  have hB := (c8_weather_errors { api_key := "k" } [] (fun _ => .response 404 {}) "Париж").2.1
    5 {} (by decide) (by decide) rfl
  have hC := (c8_weather_errors { api_key := "k" } [] (fun _ => .response 500 {}) "Париж").2.2.1
    5 500 {} (by decide) (by decide) rfl (by decide) (by decide)
  have hD := (c8_weather_errors { api_key := "k" } [] (fun _ => .failure "timeout") "Париж").2.2.2
    5 "timeout" (by decide) (by decide) rfl
  exact ⟨hA, hB.1, hB.2 6, hC, hD⟩

/-! ## Claim C2 -/

/-- Claim C2 evidence (code bug): an utterance containing a weather-intent
keyword is captured at step "rules" by the registered pattern
`r'погода|weather|прогноз'` before the city-extraction weather branch
(lines 633–650) can run, so that branch is unreachable.  "погода Москва"
returns the weather rule's prompt with `needs_followup = false` and never
consults the provider (the claim expects the WeatherLookup text), and
"погода" alone returns `needs_followup = false` with no action (the claim
expects `needs_followup = true` with followup kind `weather`). -/
theorem c2_weather_branch_shadowed :
    (process_message (default_knowledge "t0") [] { api_key := "k" } {} 1 "погода Москва"
        none none none false none).outcome.response
      = "🌤️ Напиши название города для получения погоды, например: \x27Москва\x27 или \x27погода Москва\x27" ∧
    (process_message (default_knowledge "t0") [] { api_key := "k" } {} 1 "погода Москва"
        none none none false none).outcome.needs_followup = false ∧
    (process_message (default_knowledge "t0") [] { api_key := "k" } {} 1 "погода Москва"
        none none none false none).provider_called = false ∧
    (process_message (default_knowledge "t0") [] { api_key := "k" } {} 1 "погода"
        none none none false none).outcome.needs_followup = false ∧
    (process_message (default_knowledge "t0") [] { api_key := "k" } {} 1 "погода"
        none none none false none).outcome.action = none := by
  refine ⟨by decide, by decide, by decide, by decide, by decide⟩

/-! ## Claim C9 -/

theorem profile_keys_congr {a b : Knowledge} (h : a.user_profiles = b.user_profiles) :
    profile_keys a = profile_keys b := by
  unfold profile_keys; rw [h]

theorem profiles_ok_congr {a b : Knowledge} (h : a.user_profiles = b.user_profiles) :
    profiles_ok a = profiles_ok b := by
  unfold profiles_ok; rw [h]

/-- The knowledge written by a rule turn (handler update then
interaction-learning) leaves the profile table and statistics alone. -/
theorem after_rule_knowledge (hd : Handler) (ctx : Ctx) (k : Knowledge) (msg : String)
    (p : Option UserProfile) :
    (learn_from_interaction (run_handler hd ctx k msg p).2 msg
        (run_handler hd ctx k msg p).1).user_profiles = k.user_profiles ∧
    (learn_from_interaction (run_handler hd ctx k msg p).2 msg
        (run_handler hd ctx k msg p).1).statistics = k.statistics := by
  constructor
  · rw [(lfi_preserved _ _ _).1]
    exact (handler_update_preserved hd ctx k msg p).1
  · rw [(lfi_preserved _ _ _).2.1]
    exact (handler_update_preserved hd ctx k msg p).2.1

theorem dget?_isSome_key_mem [BEq κ] [LawfulBEq κ] (a : κ) (d : List (κ × α))
    (h : (dget? a d).isSome = true) : a ∈ d.map (·.1) := by
  cases hv : dget? a d with
  | none => rw [hv] at h; simp at h
  | some v =>
    rcases dget?_some_mem a v d hv with ⟨e, he, hbeq, _⟩
    have : e.1 = a := by simpa using hbeq
    exact this ▸ List.mem_map.mpr ⟨e, he, rfl⟩

/-- After a full turn, the profile-key list gains exactly the acting user's
id (when absent), `statistics.total_users` is bumped exactly on that
creation, and the table stays well-formed. -/
theorem pm_keys_tu (k : Knowledge) (cache : WCache) (cfg : WeatherConfig) (ctx : Ctx)
    (uid : Int) (msg : String) (un fn ln : Option String) (ic : Bool) (cd : CorrectionArg)
    (wf : profiles_ok k = true) :
    profile_keys (process_message k cache cfg ctx uid msg un fn ln ic cd).knowledge
      = (if (dget? uid k.user_profiles).isSome then profile_keys k
         else profile_keys k ++ [uid]) ∧
    (process_message k cache cfg ctx uid msg un fn ln ic cd).knowledge.statistics.total_users
      = (if (dget? uid k.user_profiles).isSome then k.statistics.total_users
         else k.statistics.total_users + 1) ∧
    profiles_ok (process_message k cache cfg ctx uid msg un fn ln ic cd).knowledge = true := by
  have hkeys2 : profile_keys (update_user_stats
      (get_or_create_user_profile k ctx.now uid un fn ln).2 ctx.now uid "total_messages")
      = (if (dget? uid k.user_profiles).isSome then profile_keys k
         else profile_keys k ++ [uid]) := by
    rw [uus_keys, goc_keys _ _ _ _ _ _ wf]
  have htu2 : (update_user_stats
      (get_or_create_user_profile k ctx.now uid un fn ln).2 ctx.now uid
      "total_messages").statistics.total_users
      = (if (dget? uid k.user_profiles).isSome then k.statistics.total_users
         else k.statistics.total_users + 1) := by
    rw [uus_stats_total_messages]
    simpa using goc_total_users k ctx.now uid un fn ln
  have hwf2 : profiles_ok (update_user_stats
      (get_or_create_user_profile k ctx.now uid un fn ln).2 ctx.now uid
      "total_messages") = true :=
    uus_wf _ _ _ _ (goc_wf _ _ _ _ _ _ wf)
  simp only [process_message]
  split
  · exact ⟨by rw [apply_correction_keys]; exact hkeys2,
      by rw [(apply_correction_stats _ _ _ _ _).2.2]; exact htu2,
      apply_correction_wf _ _ _ _ _ hwf2⟩
  · split
    · exact ⟨by rw [profile_keys_congr (after_rule_knowledge _ _ _ _ _).1]; exact hkeys2,
        by rw [(after_rule_knowledge _ _ _ _ _).2]; exact htu2,
        by rw [profiles_ok_congr (after_rule_knowledge _ _ _ _ _).1]; exact hwf2⟩
    · split
      · exact ⟨by rw [profile_keys_congr (lfi_preserved _ _ _).1]; exact hkeys2,
          by rw [(lfi_preserved _ _ _).2.1]; exact htu2,
          by rw [profiles_ok_congr (lfi_preserved _ _ _).1]; exact hwf2⟩
      · split
        · split
          · exact ⟨hkeys2, htu2, hwf2⟩
          · exact ⟨hkeys2, htu2, hwf2⟩
        · split
          · exact ⟨hkeys2, htu2, hwf2⟩
          · exact ⟨hkeys2, htu2, hwf2⟩

/-- Claim C9: `statistics.totalUsers` equals the number of distinct profile
keys as an invariant of every turn; `get_or_create_user_profile` creates a
profile with `conversation_count = 1` and bumps `total_users` exactly on a
miss, changes neither the key set nor the counter on a hit, and repeated
turns from the same user never create a second profile or bump the counter
again. -/
theorem c9_total_users_invariant
    (k : Knowledge) (cache : WCache) (cfg : WeatherConfig) (ctx : Ctx)
    (uid : Int) (msg : String) (un fn ln : Option String) (ic : Bool) (cd : CorrectionArg)
    (wf : profiles_ok k = true) :
    (dget? uid k.user_profiles = none →
      (get_or_create_user_profile k ctx.now uid un fn ln).1.conversation_count = 1 ∧
      (get_or_create_user_profile k ctx.now uid un fn ln).2.statistics.total_users
        = k.statistics.total_users + 1 ∧
      profile_keys (get_or_create_user_profile k ctx.now uid un fn ln).2
        = profile_keys k ++ [uid]) ∧
    ((dget? uid k.user_profiles).isSome = true →
      (get_or_create_user_profile k ctx.now uid un fn ln).2.statistics.total_users
        = k.statistics.total_users ∧
      profile_keys (get_or_create_user_profile k ctx.now uid un fn ln).2
        = profile_keys k) ∧
    (k.statistics.total_users = (profile_keys k).toFinset.card →
      (process_message k cache cfg ctx uid msg un fn ln ic cd).knowledge.statistics.total_users
        = (profile_keys
            (process_message k cache cfg ctx uid msg un fn ln ic cd).knowledge).toFinset.card) ∧
    (∀ (cache2 : WCache) (ctx2 : Ctx) (msg2 : String) (un2 fn2 ln2 : Option String)
        (ic2 : Bool) (cd2 : CorrectionArg),
      profile_keys (process_message
          (process_message k cache cfg ctx uid msg un fn ln ic cd).knowledge
          cache2 cfg ctx2 uid msg2 un2 fn2 ln2 ic2 cd2).knowledge
        = profile_keys (process_message k cache cfg ctx uid msg un fn ln ic cd).knowledge ∧
      (process_message
          (process_message k cache cfg ctx uid msg un fn ln ic cd).knowledge
          cache2 cfg ctx2 uid msg2 un2 fn2 ln2 ic2 cd2).knowledge.statistics.total_users
        = (process_message k cache cfg ctx uid msg un fn ln
            ic cd).knowledge.statistics.total_users) := by
  obtain ⟨hkeys, htu, hwf1⟩ := pm_keys_tu k cache cfg ctx uid msg un fn ln ic cd wf
  refine ⟨?_, ?_, ?_, ?_⟩
  · intro h
    refine ⟨goc_conversation_count_new k ctx.now uid un fn ln h, ?_, ?_⟩
    · rw [goc_total_users]; simp [h]
    · rw [goc_keys _ _ _ _ _ _ wf]; simp [h]
  · intro h
    exact ⟨by rw [goc_total_users, if_pos h], by rw [goc_keys _ _ _ _ _ _ wf, if_pos h]⟩
  · intro hinv
    rw [hkeys, htu]
    by_cases hmem : (dget? uid k.user_profiles).isSome = true
    · simp [hmem, hinv]
    · have hnotmem : uid ∉ profile_keys k :=
        fun hin => hmem (dget?_isSome_of_key_mem uid _ hin)
      have hfin : (profile_keys k ++ [uid]).toFinset
          = insert uid (profile_keys k).toFinset := by
        simp [List.toFinset_append, Finset.insert_eq, Finset.union_comm]
      rw [if_neg hmem, if_neg hmem, hfin,
        Finset.card_insert_of_not_mem (by simpa using hnotmem), hinv]
  · intro cache2 ctx2 msg2 un2 fn2 ln2 ic2 cd2
    have hmem1 : uid ∈ profile_keys
        (process_message k cache cfg ctx uid msg un fn ln ic cd).knowledge := by
      rw [hkeys]
      by_cases hmem : (dget? uid k.user_profiles).isSome = true
      · rw [if_pos hmem]
        exact dget?_isSome_key_mem uid k.user_profiles hmem
      · rw [if_neg hmem]
        exact List.mem_append_right _ (List.mem_singleton.mpr rfl)
    have hget2 : (dget? uid (process_message k cache cfg ctx uid msg un fn ln
        ic cd).knowledge.user_profiles).isSome = true :=
      dget?_isSome_of_key_mem uid _ hmem1
    obtain ⟨hkeys', htu', _⟩ := pm_keys_tu
      (process_message k cache cfg ctx uid msg un fn ln ic cd).knowledge
      cache2 cfg ctx2 uid msg2 un2 fn2 ln2 ic2 cd2 hwf1
    rw [hkeys', htu', if_pos hget2, if_pos hget2]
    exact ⟨rfl, rfl⟩

theorem c9_total_users_invariant_witness :
    (get_or_create_user_profile (default_knowledge "t0") 0 1
        none none none).1.conversation_count = 1 ∧
    (get_or_create_user_profile (default_knowledge "t0") 0 1
        none none none).2.statistics.total_users = 1 ∧
    (process_message (default_knowledge "t0") [] {} {} 1 "привет"
        none none none false none).knowledge.statistics.total_users
      = (profile_keys (process_message (default_knowledge "t0") [] {} {} 1 "привет"
          none none none false none).knowledge).toFinset.card ∧
    profile_keys (process_message
        (process_message (default_knowledge "t0") [] {} {} 1 "привет"
          none none none false none).knowledge
        [] {} {} 1 "пока" none none none false none).knowledge
      = profile_keys (process_message (default_knowledge "t0") [] {} {} 1 "привет"
          none none none false none).knowledge ∧
    (process_message (process_message (default_knowledge "t0") [] {} {} 1 "привет"
        none none none false none).knowledge
        [] {} {} 1 "пока" none none none false none).knowledge.statistics.total_users
      = (process_message (default_knowledge "t0") [] {} {} 1 "привет"
          none none none false none).knowledge.statistics.total_users := by
  have h := c9_total_users_invariant (default_knowledge "t0") [] {} {} 1 "привет"
    none none none false none (by decide)
  have hA := h.1 (by decide)
  exact ⟨hA.1, hA.2.1, h.2.2.1 (by decide),
    (h.2.2.2 [] {} "пока" none none none false none).1,
    (h.2.2.2 [] {} "пока" none none none false none).2⟩

end NixAI









